import Mathlib

/-!
Verification development for the Custom-Jira-MCP server
(`src/tools/utils.py`, `src/tools/jira_tools.py`, `src/tools/confluence_tools.py`).

The Python code is shallowly embedded: JSON values become the inductive
type `JVal`, Python dictionary/iteration/truthiness semantics become
explicit functions, fallible Python code becomes `Except PyErr`, and every
HTTP request issued through `httpx` becomes a query to an explicit oracle
`Env : Req → Except Nat JVal` (status-error or parsed JSON body), matching
the spec's "Remote API Client" collaborator contract.  Functions keep the
names of the Python functions they embed.
-/

/-- Errors a modelled Python fragment can raise.  `httpError s` stands for
`httpx.HTTPStatusError` with HTTP status `s` (raised by
`response.raise_for_status()`); `attributeError` for calling `.get`/`.lower`
etc. on a value that lacks it; `typeError` for iterating a non-iterable or
joining non-strings. -/
inductive PyErr where
  | attributeError
  | typeError
  | httpError (status : Nat)
  deriving DecidableEq, Repr

/-- JSON values, the data the Atlassian REST APIs exchange.  Numbers are
modelled as integers (ids, counts and totals are integral in this code). -/
inductive JVal where
  | null
  | bool (b : Bool)
  | num (n : Int)
  | str (s : String)
  | arr (elems : List JVal)
  | obj (fields : List (String × JVal))

namespace JVal

/-- First-match association-list lookup; the JSON objects handled here have
unique keys, so this agrees with Python dict lookup. -/
def lookup : List (String × JVal) → String → Option JVal
  | [], _ => none
  | (k, v) :: rest, key => if k = key then some v else lookup rest key

/-- Python `d.get(key, default)` on a value already known to be a dict:
returns the stored value (even `None`) when the key is present, the default
only when it is absent. -/
def pyGet (fields : List (String × JVal)) (key : String) (default : JVal) : JVal :=
  (lookup fields key).getD default

/-- Python `v.get(key, default)` on an arbitrary value: raises
`AttributeError` unless `v` is a dict. -/
def dotGet (v : JVal) (key : String) (default : JVal) : Except PyErr JVal :=
  match v with
  | .obj fields => .ok (pyGet fields key default)
  | _ => .error .attributeError

/-- Python truthiness: `None`, `False`, `0`, `""`, `[]`, and the empty dict
are falsy; everything else is truthy. -/
def pyFalsy : JVal → Bool
  | .null => true
  | .bool b => !b
  | .num n => n == 0
  | .str s => s.isEmpty
  | .arr xs => xs.isEmpty
  | .obj fs => fs.isEmpty

def pyTruthy (v : JVal) : Bool := !pyFalsy v

/-- Python `v == "lit"` for a string literal: true only when `v` is that
string (values of other types never equal a string). -/
def isStr (v : JVal) (lit : String) : Bool :=
  match v with
  | .str s => s = lit
  | _ => false

/-- `str(v)` as used inside f-strings building request URLs.  Scalar cases
are faithful; the container cases (never produced by the claims' inputs,
since keys and ids arrive as JSON scalars) are abbreviated. -/
def pyStrOf : JVal → String
  | .null => "None"
  | .bool true => "True"
  | .bool false => "False"
  | .num n => toString n
  | .str s => s
  | .arr _ => "<list>"
  | .obj _ => "<dict>"

/-- `len(v)`: defined for sequences and mappings, `TypeError` otherwise. -/
def pyLen : JVal → Except PyErr Int
  | .str s => .ok s.length
  | .arr xs => .ok xs.length
  | .obj fs => .ok fs.length
  | _ => .error .typeError

end JVal

/-- ASCII whitespace as recognised by Python `str.strip()` (the Unicode
whitespace the Atlassian payloads at issue never contain is elided). -/
def isPySpace (c : Char) : Bool :=
  c = ' ' || c = '\t' || c = '\n' || c = '\r' || c = '\x0b' || c = '\x0c'

/-- Python `s.lower()` for the ASCII sprint names at issue (a structural
definition, `A`-`Z` mapped down by 32). -/
def pyLower (s : String) : String :=
  String.mk (s.toList.map (fun c =>
    if 'A' ≤ c ∧ c ≤ 'Z' then Char.ofNat (c.toNat + 32) else c))

/-- Python `s.strip()`: drop leading and trailing whitespace. -/
def pyStrip (s : String) : String :=
  String.mk (((s.toList.dropWhile isPySpace).reverse.dropWhile isPySpace).reverse)

/-- Python `"".join(parts)` over the accumulated `text_parts`: concatenates
when every part is a string, raises `TypeError` otherwise. -/
def pyJoin : List JVal → Except PyErr String
  | [] => .ok ""
  | .str s :: rest => do
    let r ← pyJoin rest
    pure (s ++ r)
  | _ :: _ => .error .typeError

open JVal

@[simp] theorem exceptBind_ok {ε α β : Type} (a : α) (f : α → Except ε β) :
    (Except.ok a >>= f : Except ε β) = f a := rfl

@[simp] theorem exceptBind_error {ε α β : Type} (e : ε) (f : α → Except ε β) :
    (Except.error e >>= f : Except ε β) = Except.error e := rfl

@[simp] theorem exceptMap_ok {ε α β : Type} (f : α → β) (a : α) :
    (f <$> (Except.ok a : Except ε α) : Except ε β) = Except.ok (f a) := rfl

@[simp] theorem exceptMap_error {ε α β : Type} (f : α → β) (e : ε) :
    (f <$> (Except.error e : Except ε α) : Except ε β) = Except.error e := rfl

@[simp] theorem exceptPure_eq_ok {ε α : Type} (a : α) :
    (pure a : Except ε α) = Except.ok a := rfl

theorem lookup_sizeOf {fields : List (String × JVal)} {key : String} {v : JVal}
    (h : lookup fields key = some v) : sizeOf v < sizeOf fields := by
  induction fields with
  | nil => simp [lookup] at h
  | cons p rest ih =>
    obtain ⟨k, w⟩ := p
    simp only [lookup] at h
    by_cases hk : k = key
    · simp [hk] at h
      subst h
      simp
      omega
    · simp [hk] at h
      have := ih h
      simp
      omega

mutual

/-- `extract_from_content(content_list)` from `src/tools/utils.py`: the
Python `for item in content_list` loop.  Iterating a list visits its
elements; iterating a (nonempty) string or dict yields strings, on which
the loop body's first `item.get` raises `AttributeError` at once (empty
ones iterate zero times); iterating any other value raises `TypeError`.
Returns the list of values appended to `text_parts`. -/
def extract_from_content (content_list : JVal) : Except PyErr (List JVal) :=
  match content_list with
  | .arr xs => extract_loop xs
  | .str s => if s.isEmpty then .ok [] else .error .attributeError
  | .obj fs => if fs.isEmpty then .ok [] else .error .attributeError
  | _ => .error .typeError
termination_by sizeOf content_list
decreasing_by all_goals (simp_wf <;> omega)

/-- The iterations of the `for item in content_list` loop, in order. -/
def extract_loop (items : List JVal) : Except PyErr (List JVal) :=
  match items with
  | [] => .ok []
  | item :: rest => do
    let parts ← extract_item item
    let more ← extract_loop rest
    pure (parts ++ more)
termination_by sizeOf items
decreasing_by all_goals (simp_wf <;> omega)

/-- One iteration of the loop body of `extract_from_content`: dispatch on
`item.get('type')`, first match wins.  `item.get` raises on non-dicts. -/
def extract_item (item : JVal) : Except PyErr (List JVal) :=
  match item with
  | .obj fields =>
    let t := pyGet fields "type" .null
    if isStr t "text" then
      .ok [pyGet fields "text" (.str "")]
    else if isStr t "paragraph" || isStr t "listItem" || isStr t "tableCell"
        || isStr t "tableHeader" then
      match h : lookup fields "content" with
      | some v => do
        let inner ← extract_from_content v
        pure (inner ++ [JVal.str "\n"])
      | none => .ok [JVal.str "\n"]
    else if isStr t "bulletList" || isStr t "orderedList" then
      match h : lookup fields "content" with
      | some v => extract_from_content v
      | none => .ok []
    else if isStr t "hardBreak" then
      .ok [JVal.str "\n"]
    else
      match h : lookup fields "content" with
      | some v => extract_from_content v
      | none => .ok []
  | _ => .error .attributeError
termination_by sizeOf item
decreasing_by all_goals (simp_wf; have := lookup_sizeOf h; omega)

end

/-- `extract_text_from_adf(adf_content)` from `src/tools/utils.py`. -/
def extract_text_from_adf (adf_content : JVal) : Except PyErr String :=
  if pyFalsy adf_content then .ok ""
  else match adf_content with
  | .str s => .ok s
  | .obj fields =>
    match lookup fields "content" with
    | some v => do
      let parts ← extract_from_content v
      let joined ← pyJoin parts
      pure (pyStrip joined)
    | none => .ok ""
  | _ => .ok ""

/-- A `JVal` that is a JSON string. -/
def isStrVal : JVal → Bool
  | .str _ => true
  | _ => false

/-- Every accumulated part is a string (so `''.join` will succeed). -/
def allStr (parts : List JVal) : Bool := parts.all isStrVal

theorem pyJoin_allStr {parts : List JVal} (h : allStr parts = true) :
    ∃ s, pyJoin parts = .ok s := by
  induction parts with
  | nil => exact ⟨"", rfl⟩
  | cons p rest ih =>
    simp [allStr, List.all_cons] at h
    obtain ⟨hp, hrest⟩ := h
    obtain ⟨s, hs⟩ : ∃ s, p = JVal.str s := by
      cases p <;> simp [isStrVal] at hp ⊢
    obtain ⟨r, hr⟩ := ih (by simpa [allStr] using hrest)
    exact ⟨s ++ r, by simp [hs, pyJoin, hr]⟩

/-- Fuel-indexed well-formedness of a `content` value: a list of dict nodes
whose `text` values are strings and whose own `content` values are again
well-formed, to depth at most the fuel.  These are the document trees on
which `extract_from_content` meets no malformed node. -/
def wfContentF : Nat → JVal → Bool
  | 0, _ => false
  | n + 1, .arr xs => xs.all (fun item =>
      match item with
      | .obj fields =>
        (if isStr (pyGet fields "type" .null) "text"
         then isStrVal (pyGet fields "text" (.str ""))
         else true)
        && (match lookup fields "content" with
            | some v => wfContentF n v
            | none => true)
      | _ => false)
  | _ + 1, _ => false

/-- Well-formedness of a single node inside a content list (the predicate
`wfContentF` applies to each entry). -/
def wfItemF (n : Nat) (item : JVal) : Bool :=
  match item with
  | .obj fields =>
    (if isStr (pyGet fields "type" .null) "text"
     then isStrVal (pyGet fields "text" (.str ""))
     else true)
    && (match lookup fields "content" with
        | some v => wfContentF n v
        | none => true)
  | _ => false

theorem wfContentF_succ_arr (n : Nat) (xs : List JVal) :
    wfContentF (n + 1) (.arr xs) = xs.all (wfItemF n) := rfl

/-- Well-formedness of a top-level argument of `extract_text_from_adf`:
anything that is not a dict is handled by the top-level guards; a dict is
safe when its `content` value (if any) is well-formed. -/
def wfTopF (n : Nat) (v : JVal) : Bool :=
  match v with
  | .obj fields =>
    match lookup fields "content" with
    | some c => wfContentF n c
    | none => true
  | _ => true

theorem extract_loop_allOk {items : List JVal}
    (h : ∀ it ∈ items, ∃ parts, extract_item it = .ok parts ∧ allStr parts = true) :
    ∃ parts, extract_loop items = .ok parts ∧ allStr parts = true := by
  induction items with
  | nil => exact ⟨[], by simp [extract_loop, allStr]⟩
  | cons it rest ih =>
    obtain ⟨p1, hp1, hs1⟩ := h it (by simp)
    obtain ⟨p2, hp2, hs2⟩ := ih (fun x hx => h x (by simp [hx]))
    refine ⟨p1 ++ p2, ?_, ?_⟩
    · simp only [extract_loop, hp1, hp2]
      rfl
    · simp [allStr] at hs1 hs2 ⊢
      exact ⟨hs1, hs2⟩

theorem extract_item_wf_aux (n : Nat)
    (hA : ∀ v, wfContentF n v = true →
      ∃ parts, extract_from_content v = .ok parts ∧ allStr parts = true) :
    ∀ item, wfItemF n item = true →
      ∃ parts, extract_item item = .ok parts ∧ allStr parts = true := by
  intro item h
  cases item <;> simp [wfItemF] at h
  rename_i fields
  obtain ⟨htext, hcontent⟩ := h
  by_cases ht : isStr (pyGet fields "type" JVal.null) "text"
  · refine ⟨[pyGet fields "text" (JVal.str "")], ?_, ?_⟩
    · simp [extract_item, ht]
    · simp [ht] at htext
      simp [allStr, htext]
  · by_cases hp : isStr (pyGet fields "type" JVal.null) "paragraph"
        || isStr (pyGet fields "type" JVal.null) "listItem"
        || isStr (pyGet fields "type" JVal.null) "tableCell"
        || isStr (pyGet fields "type" JVal.null) "tableHeader"
    · cases hc : lookup fields "content" with
      | some v =>
        simp [hc] at hcontent
        obtain ⟨inner, hi, hsi⟩ := hA v hcontent
        refine ⟨inner ++ [JVal.str "\n"], ?_, ?_⟩
        · simp only [extract_item, ht, hp]
          simp only [Bool.not_eq_true] at ht
          simp [ht, hp]
          split
          · rename_i w heq
            rw [hc] at heq
            injection heq with hw
            subst hw
            rw [hi]
            rfl
          · rename_i heq
            rw [hc] at heq
            cases heq
        · simp [allStr, isStrVal] at hsi ⊢
          exact hsi
      | none =>
        refine ⟨[JVal.str "\n"], ?_, ?_⟩
        · simp only [Bool.not_eq_true] at ht
          simp [extract_item, ht, hp]
          split
          · rename_i w heq
            rw [hc] at heq
            cases heq
          · rfl
        · simp [allStr, isStrVal]
    · by_cases hl : isStr (pyGet fields "type" JVal.null) "bulletList"
          || isStr (pyGet fields "type" JVal.null) "orderedList"
      · cases hc : lookup fields "content" with
        | some v =>
          simp [hc] at hcontent
          obtain ⟨inner, hi, hsi⟩ := hA v hcontent
          refine ⟨inner, ?_, hsi⟩
          simp only [Bool.not_eq_true] at ht hp
          simp [extract_item, ht, hp, hl]
          split
          · rename_i w heq
            rw [hc] at heq
            injection heq with hw
            subst hw
            exact hi
          · rename_i heq
            rw [hc] at heq
            cases heq
        | none =>
          refine ⟨[], ?_, by simp [allStr]⟩
          simp only [Bool.not_eq_true] at ht hp
          simp [extract_item, ht, hp, hl]
          split
          · rename_i w heq
            rw [hc] at heq
            cases heq
          · rfl
      · by_cases hb : isStr (pyGet fields "type" JVal.null) "hardBreak"
        · refine ⟨[JVal.str "\n"], ?_, by simp [allStr, isStrVal]⟩
          simp only [Bool.not_eq_true] at ht hp hl
          simp [extract_item, ht, hp, hl, hb]
        · cases hc : lookup fields "content" with
          | some v =>
            simp [hc] at hcontent
            obtain ⟨inner, hi, hsi⟩ := hA v hcontent
            refine ⟨inner, ?_, hsi⟩
            simp only [Bool.not_eq_true] at ht hp hl hb
            simp [extract_item, ht, hp, hl, hb]
            split
            · rename_i w heq
              rw [hc] at heq
              injection heq with hw
              subst hw
              exact hi
            · rename_i heq
              rw [hc] at heq
              cases heq
          | none =>
            refine ⟨[], ?_, by simp [allStr]⟩
            simp only [Bool.not_eq_true] at ht hp hl hb
            simp [extract_item, ht, hp, hl, hb]
            split
            · rename_i w heq
              rw [hc] at heq
              cases heq
            · rfl

theorem extract_from_content_wf :
    ∀ (n : Nat) (v : JVal), wfContentF n v = true →
      ∃ parts, extract_from_content v = .ok parts ∧ allStr parts = true := by
  intro n
  induction n with
  | zero => intro v h; simp [wfContentF] at h
  | succ n ih =>
    intro v h
    cases v <;> simp [wfContentF] at h
    rename_i xs
    obtain ⟨parts, hp, hs⟩ := @extract_loop_allOk xs
      (fun it hit => extract_item_wf_aux n ih it (by
        have := h it hit
        simpa [wfItemF] using this))
    exact ⟨parts, by simp [extract_from_content, hp], hs⟩

/-- C1 (counterexample): applied to the single bare node
`{"type": "text", "text": "hello"}` — which has no `content` key —
`extract_text_from_adf` returns the empty string, not `"hello"` stripped
(`pyStrip "hello" = "hello" ≠ ""`): the extractor only walks the top-level
dict's `content` list and never dispatches on the top-level node itself. -/
theorem C1_bare_text_node_counterexample :
    extract_text_from_adf (.obj [("type", .str "text"), ("text", .str "hello")]) = .ok ""
      ∧ pyStrip "hello" ≠ "" := by
  exact ⟨rfl, by decide⟩

/-- C1 (amended): for every string X, applying `extract_text_from_adf` to a
document whose `content` list holds the single node
`{"type": "text", "text": X}` returns X with leading/trailing whitespace
stripped exactly once; the bare node itself (outside a `content` list)
yields the empty string. -/
theorem C1_text_node_extract (X : String) :
    extract_text_from_adf
        (.obj [("content", .arr [.obj [("type", .str "text"), ("text", .str X)]])])
      = .ok (pyStrip X) := by
  simp [extract_text_from_adf, extract_from_content, extract_loop, extract_item,
    lookup, pyGet, isStr, pyFalsy]
  show Except.ok (pyStrip (X ++ "")) = Except.ok (pyStrip X)
  simp

/-- C2 (counterexample): a malformed document node — the non-dict entry
`"oops"` inside a `content` list — makes `extract_text_from_adf` raise
`AttributeError` (the loop body calls `item.get` on it), contradicting
"returns a string and never raises". -/
theorem C2_malformed_raises_counterexample :
    extract_text_from_adf (.obj [("content", .arr [.str "oops"])])
      = .error .attributeError := by
  simp [extract_text_from_adf, extract_from_content, extract_loop, extract_item,
    lookup, pyGet, isStr]
  rfl

/-- C2 (amended): `extract_text_from_adf` returns a string and never raises
on every input whose `content` trees are well-formed (each `content` value
a list of dict nodes, each text node's `text` value a string); in
particular every non-dict top-level value and every dict without a
`content` key yields a string.  A non-dict entry inside a `content` list,
by contrast, raises (see the counterexample). -/
theorem C2_extract_text_total_on_wf (v : JVal) (n : Nat) (h : wfTopF n v = true) :
    ∃ s, extract_text_from_adf v = .ok s := by
  by_cases hf : pyFalsy v
  · exact ⟨"", by simp [extract_text_from_adf, hf]⟩
  · cases v with
    | obj fields =>
      cases hc : lookup fields "content" with
      | some c =>
        simp only [wfTopF, hc] at h
        obtain ⟨parts, hp, hs⟩ := extract_from_content_wf n c h
        obtain ⟨s, hjoin⟩ := pyJoin_allStr hs
        refine ⟨pyStrip s, ?_⟩
        simp [extract_text_from_adf, hf, hc, hp, hjoin]
      | none => exact ⟨"", by simp [extract_text_from_adf, hf, hc]⟩
    | str s => exact ⟨s, by simp [extract_text_from_adf, hf]⟩
    | null => exact ⟨"", by simp [extract_text_from_adf, hf]⟩
    | bool b => exact ⟨"", by simp [extract_text_from_adf, hf]⟩
    | num m => exact ⟨"", by simp [extract_text_from_adf, hf]⟩
    | arr xs => exact ⟨"", by simp [extract_text_from_adf, hf]⟩

/-- Witness for C2: the amended theorem applied to a concrete well-formed
document (a paragraph holding a text node and a hard break). -/
theorem C2_extract_text_total_on_wf_witness :
    wfTopF 2 (.obj [("content", .arr [.obj [("type", .str "paragraph"),
        ("content", .arr [.obj [("type", .str "text"), ("text", .str "A")],
          .obj [("type", .str "hardBreak")]])]])]) = true
    ∧ ∃ s, extract_text_from_adf (.obj [("content", .arr [.obj [("type", .str "paragraph"),
        ("content", .arr [.obj [("type", .str "text"), ("text", .str "A")],
          .obj [("type", .str "hardBreak")]])]])]) = .ok s :=
  ⟨by decide, C2_extract_text_total_on_wf _ 2 (by decide)⟩

/-- The HTTP GET requests the Jira/Confluence tools issue, identified by
endpoint and the query parameters that vary per call site.  `expand` and
`fields` carry the literal parameter strings of the Python call. -/
inductive Req where
  | issue (key : String) (expand : String) (fields : String)
  | remotelink (key : String)
  | search (jql : String) (maxResults startAt : Nat) (fields : String)
  | boards (maxResults : Nat)
  | sprints (boardId : String) (state : String)
  | sprintIssues (sprintId : String) (maxResults startAt : Nat) (fields : String)
  | page (pageId : String) (expand : String)
  deriving DecidableEq

/-- The Remote API Client of the spec: a request either yields parsed JSON
or raises an HTTP status error (`response.raise_for_status()`), modelled by
the status code. -/
def Env : Type := Req → Except Nat JVal

/-- Python `for x in v` over a JSON value: lists yield their elements,
strings their characters (as 1-character strings), dicts their keys;
anything else raises `TypeError`. -/
def pyIter : JVal → Except PyErr (List JVal)
  | .arr xs => .ok xs
  | .str s => .ok (s.toList.map (fun c => .str (String.singleton c)))
  | .obj fs => .ok (fs.map (fun p => .str p.1))
  | _ => .error .typeError

/-- Run a loop body over the iterations in order, propagating the first
raised error (a Python `for` loop building up a list). -/
def mapExceptList (f : JVal → Except PyErr JVal) : List JVal → Except PyErr (List JVal)
  | [] => .ok []
  | x :: rest => do
    let y ← f x
    let ys ← mapExceptList f rest
    pure (y :: ys)

/-- Field access on a JSON object result (for stating properties). -/
def jfield (v : JVal) (key : String) : Option JVal :=
  match v with
  | .obj fs => lookup fs key
  | _ => none

/-! ### `get_epic_issues` (src/tools/jira_tools.py lines 421-499) -/

def epicFetchFields : String := "summary,status,project,created,updated,assignee"

def epicSearchFields : String :=
  "summary,status,assignee,priority,issuetype,created,updated,parent,timetracking,progress"

/-- `jql = f'parent = {epic_key} OR "Epic Link" = {epic_key}'` -/
def jqlPrimary (epic_key : String) : String :=
  "parent = " ++ epic_key ++ " OR \"Epic Link\" = " ++ epic_key

/-- `jql_with_id = f'parent = {epic_id}'` (the epic's internal id). -/
def jqlFallback (epic_id : JVal) : String := "parent = " ++ pyStrOf epic_id

/-- The `epic_info` sub-object of the `get_epic_issues` result (lines
482-491): every value is a chain of `.get` calls, each of which raises
`AttributeError` when an intermediate value is not a dict (in particular a
present-but-null `assignee`). -/
def epic_info_of (epic_key : String) (epic_data : JVal) : Except PyErr JVal := do
  let epic_id ← dotGet epic_data "id" .null
  let fields ← dotGet epic_data "fields" (.obj [])
  let epic_summary ← dotGet fields "summary" (.str "")
  let assignee ← dotGet fields "assignee" (.obj [])
  let epic_assignee ← dotGet assignee "displayName" (.str "")
  let status ← dotGet fields "status" (.obj [])
  let epic_status ← dotGet status "name" (.str "")
  let project ← dotGet fields "project" (.obj [])
  let project_name ← dotGet project "name" (.str "")
  let created ← dotGet fields "created" (.str "")
  let updated ← dotGet fields "updated" (.str "")
  pure (.obj [("epic_key", .str epic_key), ("epic_id", epic_id),
    ("epic_summary", epic_summary), ("epic_assignee", epic_assignee),
    ("epic_status", epic_status), ("project", project_name),
    ("created", created), ("updated", updated)])

/-- The full `result` dict of `get_epic_issues` (lines 481-497). -/
def epic_result (epic_key : String) (max_results start_at : Nat)
    (epic_data issues_data : JVal) : Except PyErr JVal := do
  let info ← epic_info_of epic_key epic_data
  let total ← dotGet issues_data "total" (.num 0)
  let issuesVal ← dotGet issues_data "issues" (.arr [])
  let count ← pyLen issuesVal
  pure (.obj [("epic_info", info), ("total_issues", total),
    ("returned_issues", .num count), ("start_at", .num start_at),
    ("max_results", .num max_results), ("issues", issuesVal)])

/-- `get_epic_issues`: fetch the epic, run the primary JQL search; on
`httpx.HTTPStatusError` retry once with the id-based fallback JQL (same
`maxResults`/`startAt`); a failure of the fallback propagates uncaught.
Returns the outcome together with the list of requests issued. -/
def get_epic_issues (env : Env) (epic_key : String)
    (max_results start_at : Nat) : Except PyErr JVal × List Req :=
  let r0 := Req.issue epic_key "" epicFetchFields
  match env r0 with
  | .error st => (.error (.httpError st), [r0])
  | .ok epic_data =>
    let r1 := Req.search (jqlPrimary epic_key) max_results start_at epicSearchFields
    match env r1 with
    | .ok issues_data =>
      (epic_result epic_key max_results start_at epic_data issues_data, [r0, r1])
    | .error _ =>
      match dotGet epic_data "id" JVal.null with
      | .error e => (.error e, [r0, r1])
      | .ok epic_id =>
        let r2 := Req.search (jqlFallback epic_id) max_results start_at epicSearchFields
        match env r2 with
        | .error st => (.error (.httpError st), [r0, r1, r2])
        | .ok issues_data =>
          (epic_result epic_key max_results start_at epic_data issues_data, [r0, r1, r2])

/-! ### `get_all_issues_in_project` (lines 834-898) -/

def projectSearchFields : String :=
  "summary,status,assignee,priority,issuetype,created,updated,description,parent,labels"

def jqlProject (project_key : String) : String :=
  "project = " ++ project_key ++ " ORDER BY created DESC"

/-- The per-issue formatting of the `get_all_issues_in_project` loop body
(lines 867-887): null sub-objects are guarded with `if x else` fallbacks
(`'Unassigned'` for the assignee, `''` for priority/status/type, `None`
for the parent fields). -/
def format_project_issue (issue : JVal) : Except PyErr JVal := do
  let fields ← dotGet issue "fields" (.obj [])
  let assignee ← dotGet fields "assignee" (.obj [])
  let priority ← dotGet fields "priority" (.obj [])
  let issuetype ← dotGet fields "issuetype" (.obj [])
  let status_obj ← dotGet fields "status" (.obj [])
  let parent ← dotGet fields "parent" (.obj [])
  let key ← dotGet issue "key" (.str "")
  let summary ← dotGet fields "summary" (.str "")
  let issue_type ← if pyTruthy issuetype then dotGet issuetype "name" (.str "")
    else pure (.str "")
  let status ← if pyTruthy status_obj then dotGet status_obj "name" (.str "")
    else pure (.str "")
  let assigneeName ← if pyTruthy assignee then dotGet assignee "displayName" (.str "")
    else pure (.str "Unassigned")
  let priorityName ← if pyTruthy priority then dotGet priority "name" (.str "")
    else pure (.str "")
  let parent_key ← if pyTruthy parent then dotGet parent "key" (.str "")
    else pure JVal.null
  let parent_summary ← if pyTruthy parent then do
      let pf ← dotGet parent "fields" (.obj [])
      dotGet pf "summary" (.str "")
    else pure JVal.null
  let labels ← dotGet fields "labels" (.arr [])
  let created ← dotGet fields "created" (.str "")
  let updated ← dotGet fields "updated" (.str "")
  pure (.obj [("key", key), ("summary", summary), ("issue_type", issue_type),
    ("status", status), ("assignee", assigneeName), ("priority", priorityName),
    ("parent_key", parent_key), ("parent_summary", parent_summary),
    ("labels", labels), ("created", created), ("updated", updated)])

/-- `get_all_issues_in_project`: one JQL search, then the formatting loop,
then the result dict with `returned_issues = len(issues)`. -/
def get_all_issues_in_project (env : Env) (project_key : String)
    (max_results start_at : Nat) : Except PyErr JVal :=
  match env (Req.search (jqlProject project_key) max_results start_at projectSearchFields) with
  | .error st => .error (.httpError st)
  | .ok data => do
    let issuesRaw ← dotGet data "issues" (.arr [])
    let items ← pyIter issuesRaw
    let issues ← mapExceptList format_project_issue items
    let total ← dotGet data "total" (.num 0)
    pure (.obj [("project_key", .str project_key), ("total_issues", total),
      ("returned_issues", .num issues.length), ("start_at", .num start_at),
      ("max_results", .num max_results), ("issues", .arr issues)])

/-! ### `get_all_epics` (lines 900-964) -/

def epicsListFields : String :=
  "summary,status,project,created,updated,description,assignee,priority"

/-- The per-epic formatting of the `get_all_epics` loop body (lines
936-953). -/
def format_epic (epic : JVal) : Except PyErr JVal := do
  let fields ← dotGet epic "fields" (.obj [])
  let assignee ← dotGet fields "assignee" (.obj [])
  let priority ← dotGet fields "priority" (.obj [])
  let project ← dotGet fields "project" (.obj [])
  let status ← dotGet fields "status" (.obj [])
  let key ← dotGet epic "key" (.str "")
  let summary ← dotGet fields "summary" (.str "")
  let statusName ← if pyTruthy status then dotGet status "name" (.str "")
    else pure (.str "")
  let projectName ← if pyTruthy project then dotGet project "name" (.str "")
    else pure (.str "")
  let projectKey ← if pyTruthy project then dotGet project "key" (.str "")
    else pure (.str "")
  let assigneeName ← if pyTruthy assignee then dotGet assignee "displayName" (.str "")
    else pure (.str "Unassigned")
  let priorityName ← if pyTruthy priority then dotGet priority "name" (.str "")
    else pure (.str "")
  let created ← dotGet fields "created" (.str "")
  let updated ← dotGet fields "updated" (.str "")
  pure (.obj [("key", key), ("summary", summary), ("status", statusName),
    ("project", projectName), ("project_key", projectKey),
    ("assignee", assigneeName), ("priority", priorityName),
    ("created", created), ("updated", updated)])

/-- `get_all_epics`: the optional project filter follows Python truthiness
(`if project_key:`), so an empty-string key behaves like no filter. -/
def get_all_epics (env : Env) (project_key : Option String)
    (max_results start_at : Nat) : Except PyErr JVal :=
  let pkOpt := match project_key with
    | some pk => if pk.isEmpty then none else some pk
    | none => none
  let jql := match pkOpt with
    | some pk => "project = " ++ pk ++ " AND type = Epic ORDER BY created DESC"
    | none => "type = Epic ORDER BY created DESC"
  match env (Req.search jql max_results start_at epicsListFields) with
  | .error st => .error (.httpError st)
  | .ok data => do
    let epicsRaw ← dotGet data "issues" (.arr [])
    let items ← pyIter epicsRaw
    let epics ← mapExceptList format_epic items
    let total ← dotGet data "total" (.num 0)
    pure (.obj [("total_epics", total), ("returned_epics", .num epics.length),
      ("start_at", .num start_at), ("max_results", .num max_results),
      ("project_filter", match pkOpt with
        | some pk => .str pk
        | none => .str "All projects"),
      ("epics", .arr epics)])

/-! ### C3: degradation of absent/null optional sub-objects -/

/-- Epic JSON whose `assignee` field is present but null (how Jira reports
an unassigned issue when the field is requested). -/
def epicDataNullAssignee : JVal :=
  .obj [("id", .str "10001"),
    ("fields", .obj [("summary", .str "Login epic"),
      ("assignee", .null),
      ("status", .obj [("name", .str "To Do")]),
      ("project", .obj [("name", .str "Web")]),
      ("created", .str "2024-01-01"), ("updated", .str "2024-01-02")])]

/-- Epic JSON with no `assignee` key at all. -/
def epicDataAbsentAssignee : JVal :=
  .obj [("id", .str "10001"),
    ("fields", .obj [("summary", .str "Login epic"),
      ("status", .obj [("name", .str "To Do")]),
      ("project", .obj [("name", .str "Web")]),
      ("created", .str "2024-01-01"), ("updated", .str "2024-01-02")])]

def emptySearchResult : JVal := .obj [("total", .num 0), ("issues", .arr [])]

def envEpicNullAssignee : Env := fun r =>
  match r with
  | .issue _ _ _ => .ok epicDataNullAssignee
  | .search _ _ _ _ => .ok emptySearchResult
  | _ => .ok .null

def envEpicAbsentAssignee : Env := fun r =>
  match r with
  | .issue _ _ _ => .ok epicDataAbsentAssignee
  | .search _ _ _ _ => .ok emptySearchResult
  | _ => .ok .null

/-- An issue whose `assignee`, `priority` and `status` are present but
null, as returned inside a project search. -/
def projIssueNulls : JVal :=
  .obj [("key", .str "SCRUM-2"),
    ("fields", .obj [("summary", .str "Fix bug"), ("assignee", .null),
      ("priority", .null), ("status", .null)])]

def envProjNulls : Env := fun r =>
  match r with
  | .search _ _ _ _ => .ok (.obj [("total", .num 1), ("issues", .arr [projIssueNulls])])
  | _ => .ok .null

/-- C3 (counterexample): `get_epic_issues` with a present-but-null
`assignee` on the epic raises `AttributeError` instead of returning a
result: `epic_data.get('fields', {}).get('assignee', {})` yields `None`
(not the `{}` default) and `.get('displayName', '')` on `None` raises. -/
theorem C3_null_epic_assignee_raises :
    (get_epic_issues envEpicNullAssignee "SCRUM-1" 100 0).1
      = .error .attributeError := rfl

/-- C3 (amended): an *absent* optional sub-object degrades to an empty
string (epic assignee in `get_epic_issues`) and the call succeeds, and
present-but-*null* assignee/priority/status on an issue degrade to
"Unassigned"/""/"" in `get_all_issues_in_project`, whose call also
succeeds; only a null sub-object on the epic in `get_epic_issues` raises
(see the counterexample). -/
theorem C3_optional_data_degrades :
    (∀ sm : String,
      epic_info_of "SCRUM-1" (.obj [("id", .str "10001"),
          ("fields", .obj [("summary", .str sm),
            ("status", .obj [("name", .str "To Do")]),
            ("project", .obj [("name", .str "Web")]),
            ("created", .str "c"), ("updated", .str "u")])])
        = .ok (.obj [("epic_key", .str "SCRUM-1"), ("epic_id", .str "10001"),
            ("epic_summary", .str sm), ("epic_assignee", .str ""),
            ("epic_status", .str "To Do"), ("project", .str "Web"),
            ("created", .str "c"), ("updated", .str "u")]))
    ∧ (get_epic_issues envEpicAbsentAssignee "SCRUM-1" 100 0).1
        = .ok (.obj [("epic_info",
            .obj [("epic_key", .str "SCRUM-1"), ("epic_id", .str "10001"),
              ("epic_summary", .str "Login epic"), ("epic_assignee", .str ""),
              ("epic_status", .str "To Do"), ("project", .str "Web"),
              ("created", .str "2024-01-01"), ("updated", .str "2024-01-02")]),
            ("total_issues", .num 0), ("returned_issues", .num 0),
            ("start_at", .num 0), ("max_results", .num 100),
            ("issues", .arr [])])
    ∧ (∀ sm : String,
      format_project_issue (.obj [("key", .str "SCRUM-2"),
          ("fields", .obj [("summary", .str sm), ("assignee", .null),
            ("priority", .null), ("status", .null)])])
        = .ok (.obj [("key", .str "SCRUM-2"), ("summary", .str sm),
            ("issue_type", .str ""), ("status", .str ""),
            ("assignee", .str "Unassigned"), ("priority", .str ""),
            ("parent_key", .null), ("parent_summary", .null),
            ("labels", .arr []), ("created", .str ""), ("updated", .str "")]))
    ∧ get_all_issues_in_project envProjNulls "SCRUM" 100 0
        = .ok (.obj [("project_key", .str "SCRUM"), ("total_issues", .num 1),
            ("returned_issues", .num 1), ("start_at", .num 0),
            ("max_results", .num 100),
            ("issues", .arr [.obj [("key", .str "SCRUM-2"),
              ("summary", .str "Fix bug"), ("issue_type", .str ""),
              ("status", .str ""), ("assignee", .str "Unassigned"),
              ("priority", .str ""), ("parent_key", .null),
              ("parent_summary", .null), ("labels", .arr []),
              ("created", .str ""), ("updated", .str "")]])]) :=
  ⟨fun _ => rfl, rfl, fun _ => rfl, rfl⟩

/-! ### C4: epic search fallback semantics -/

/-- C4: with the epic metadata fetched, (a) if the primary JQL search
(`parent = key OR "Epic Link" = key`) fails with an HTTP status error,
exactly one fallback search is issued, using the epic's internal id
(`parent = id`) with the same `maxResults`/`startAt`, and an HTTP failure
of the fallback propagates to the caller uncaught; (b) if the primary
search succeeds — with any body, in particular zero issues — no fallback
is issued. -/
theorem C4_epic_fallback (env : Env) (k : String) (fs : List (String × JVal))
    (mr sa : Nat)
    (hepic : env (Req.issue k "" epicFetchFields) = .ok (.obj fs)) :
    (∀ e, env (Req.search (jqlPrimary k) mr sa epicSearchFields) = .error e →
      (get_epic_issues env k mr sa).2
          = [Req.issue k "" epicFetchFields,
             Req.search (jqlPrimary k) mr sa epicSearchFields,
             Req.search (jqlFallback (pyGet fs "id" JVal.null)) mr sa epicSearchFields]
        ∧ ∀ e2, env (Req.search (jqlFallback (pyGet fs "id" JVal.null)) mr sa
              epicSearchFields) = .error e2 →
            (get_epic_issues env k mr sa).1 = .error (.httpError e2))
    ∧ ∀ d, env (Req.search (jqlPrimary k) mr sa epicSearchFields) = .ok d →
        (get_epic_issues env k mr sa).2
          = [Req.issue k "" epicFetchFields,
             Req.search (jqlPrimary k) mr sa epicSearchFields] := by
  constructor
  · intro e he
    cases hr2 : env (Req.search (jqlFallback (pyGet fs "id" JVal.null)) mr sa
        epicSearchFields) with
    | error st =>
      constructor
      · simp [get_epic_issues, hepic, he, dotGet, hr2]
      · intro e2 he2
        injection he2 with hst
        subst hst
        simp [get_epic_issues, hepic, he, dotGet, hr2]
    | ok d =>
      constructor
      · simp [get_epic_issues, hepic, he, dotGet, hr2]
      · intro e2 he2
        cases he2
  · intro d hd
    simp [get_epic_issues, hepic, hd]

def envC4fail : Env := fun r =>
  match r with
  | .issue _ _ _ => .ok (.obj [("id", .str "10001")])
  | .search j _ _ _ => if j = jqlPrimary "SCRUM-1" then .error 410 else .error 400
  | _ => .ok .null

def envC4ok : Env := fun r =>
  match r with
  | .issue _ _ _ => .ok (.obj [("id", .str "10001")])
  | .search _ _ _ _ => .ok emptySearchResult
  | _ => .ok .null

/-- Witness for C4: a concrete environment rejecting the primary JQL (410)
and the fallback (400) shows the exact three-request trace and the
propagated fallback error; one accepting the primary shows the two-request
trace with no fallback. -/
theorem C4_epic_fallback_witness :
    ((get_epic_issues envC4fail "SCRUM-1" 50 5).2
        = [Req.issue "SCRUM-1" "" epicFetchFields,
           Req.search (jqlPrimary "SCRUM-1") 50 5 epicSearchFields,
           Req.search (jqlFallback (.str "10001")) 50 5 epicSearchFields]
      ∧ (get_epic_issues envC4fail "SCRUM-1" 50 5).1 = .error (.httpError 400))
    ∧ (get_epic_issues envC4ok "SCRUM-1" 100 0).2
        = [Req.issue "SCRUM-1" "" epicFetchFields,
           Req.search (jqlPrimary "SCRUM-1") 100 0 epicSearchFields] :=
  ⟨⟨((C4_epic_fallback envC4fail "SCRUM-1" [("id", JVal.str "10001")] 50 5 rfl).1
        410 rfl).1,
    ((C4_epic_fallback envC4fail "SCRUM-1" [("id", JVal.str "10001")] 50 5 rfl).1
        410 rfl).2 400 rfl⟩,
   (C4_epic_fallback envC4ok "SCRUM-1" [("id", JVal.str "10001")] 100 0 rfl).2
      emptySearchResult rfl⟩

/-! ### Sprint locators (`find_sprint_ID_by_name` lines 299-337,
`get_sprint_issues_by_name` lines 339-419) -/

def sprintStates : List String := ["active", "closed", "future"]

def sprintIssuesFields : String :=
  "summary,status,assignee,priority,issuetype,created,updated,timetracking,progress,customfield_10016"

/-- `sprint.get('name', '').lower() == sprint_name.lower()`: raises unless
the sprint is a dict whose `name` value is a string (or absent); otherwise
a case-insensitive exact comparison (ASCII lower-casing suffices for the
names at issue). -/
def sprintNameMatches (sprint_name : String) (sp : JVal) : Except PyErr Bool := do
  let nm ← dotGet sp "name" (.str "")
  match nm with
  | .str s => .ok (pyLower s == pyLower sprint_name)
  | _ => .error .attributeError

/-- The inner `for sprint in data.get('values', [])` search: first sprint
whose name matches, scanning in list order. -/
def first_matching_sprint (sprint_name : String) : List JVal → Except PyErr (Option JVal)
  | [] => .ok none
  | sp :: rest => do
    let m ← sprintNameMatches sprint_name sp
    if m then pure (some sp) else first_matching_sprint sprint_name rest

/-- The found-sprint JSON of `find_sprint_ID_by_name` (lines 326-335). -/
def sprint_found_json (sp : JVal) : Except PyErr JVal := do
  let sid ← dotGet sp "id" .null
  let nm ← dotGet sp "name" .null
  let st ← dotGet sp "state" .null
  let sd ← dotGet sp "startDate" .null
  let ed ← dotGet sp "endDate" .null
  let cd ← dotGet sp "completeDate" .null
  let goal ← dotGet sp "goal" .null
  pure (.obj [("found", .bool true), ("sprint_id", sid), ("sprint_name", nm),
    ("state", st), ("start_date", sd), ("end_date", ed),
    ("complete_date", cd), ("goal", goal)])

/-- The `for state in ["active", "closed", "future"]` loop of
`find_sprint_ID_by_name`, with the requests it issues. -/
def find_sprint_states (env : Env) (board_id sprint_name : String) :
    List String → Except PyErr JVal × List Req
  | [] => (.ok (.obj [("found", .bool false),
      ("message", .str ("Sprint \x27" ++ sprint_name ++ "\x27 not found"))]), [])
  | st :: rest =>
    let r := Req.sprints board_id st
    match env r with
    | .error code => (.error (.httpError code), [r])
    | .ok data =>
      match (do
        let valuesRaw ← dotGet data "values" (.arr [])
        let sprints ← pyIter valuesRaw
        first_matching_sprint sprint_name sprints) with
      | .error e => (.error e, [r])
      | .ok (some sp) => (sprint_found_json sp, [r])
      | .ok none =>
        let (res, tr) := find_sprint_states env board_id sprint_name rest
        (res, r :: tr)

/-- `find_sprint_ID_by_name(board_id, sprint_name)`. -/
def find_sprint_ID_by_name (env : Env) (board_id sprint_name : String) :
    Except PyErr JVal × List Req :=
  find_sprint_states env board_id sprint_name sprintStates

/-- The combined board/sprint/issues result of `get_sprint_issues_by_name`
(lines 398-415). -/
def sprint_issues_result (board board_id sp sprint_id issues_data : JVal) :
    Except PyErr JVal := do
  let board_name ← dotGet board "name" .null
  let board_type ← dotGet board "type" .null
  let nm ← dotGet sp "name" .null
  let st ← dotGet sp "state" .null
  let sd ← dotGet sp "startDate" .null
  let ed ← dotGet sp "endDate" .null
  let goal ← dotGet sp "goal" .null
  let total ← dotGet issues_data "total" (.num 0)
  let issuesVal ← dotGet issues_data "issues" (.arr [])
  let count ← pyLen issuesVal
  pure (.obj [("board_info", .obj [("board_id", board_id),
      ("board_name", board_name), ("board_type", board_type)]),
    ("sprint_info", .obj [("sprint_id", sprint_id), ("sprint_name", nm),
      ("state", st), ("start_date", sd), ("end_date", ed), ("goal", goal)]),
    ("total_issues", total), ("returned_issues", .num count),
    ("issues", issuesVal)])

/-- The per-board `for state in [...]` loop of `get_sprint_issues_by_name`:
`ok none` means no match on this board (scan continues), `ok (some j)` a
produced result, `error` a raised exception.  On a match exactly one
further request (the sprint's issues) is issued and the loop returns. -/
def sprint_scan_states (env : Env) (sprint_name : String) (max_results : Nat)
    (board board_id : JVal) : List String → Except PyErr (Option JVal) × List Req
  | [] => (.ok none, [])
  | st :: rest =>
    let r := Req.sprints (pyStrOf board_id) st
    match env r with
    | .error code => (.error (.httpError code), [r])
    | .ok sprints_data =>
      match (do
        let valuesRaw ← dotGet sprints_data "values" (.arr [])
        let sprints ← pyIter valuesRaw
        first_matching_sprint sprint_name sprints) with
      | .error e => (.error e, [r])
      | .ok (some sp) =>
        match dotGet sp "id" JVal.null with
        | .error e => (.error e, [r])
        | .ok sprint_id =>
          let ri := Req.sprintIssues (pyStrOf sprint_id) max_results 0 sprintIssuesFields
          match env ri with
          | .error code => (.error (.httpError code), [r, ri])
          | .ok issues_data =>
            (Except.map some (sprint_issues_result board board_id sp sprint_id issues_data),
             [r, ri])
      | .ok none =>
        let (res, tr) := sprint_scan_states env sprint_name max_results board board_id rest
        (res, r :: tr)

/-- The outer `for board in boards_data.get('values', [])` loop. -/
def sprint_scan_boards (env : Env) (sprint_name : String) (max_results : Nat) :
    List JVal → Except PyErr (Option JVal) × List Req
  | [] => (.ok none, [])
  | board :: rest =>
    match dotGet board "id" JVal.null with
    | .error e => (.error e, [])
    | .ok board_id =>
      let (res, tr) := sprint_scan_states env sprint_name max_results board board_id sprintStates
      match res with
      | .error e => (.error e, tr)
      | .ok (some j) => (.ok (some j), tr)
      | .ok none =>
        let (res2, tr2) := sprint_scan_boards env sprint_name max_results rest
        (res2, tr ++ tr2)

/-- `get_sprint_issues_by_name(sprint_name, max_results)`: one board-list
request (single page, `maxResults=100`), then the board/state/sprint scan;
a structured error JSON naming the sprint when nothing matches. -/
def get_sprint_issues_by_name (env : Env) (sprint_name : String) (max_results : Nat) :
    Except PyErr JVal × List Req :=
  let rb := Req.boards 100
  match env rb with
  | .error code => (.error (.httpError code), [rb])
  | .ok boards_data =>
    match (do
      let valuesRaw ← dotGet boards_data "values" (.arr [])
      pyIter valuesRaw) with
    | .error e => (.error e, [rb])
    | .ok boards =>
      match sprint_scan_boards env sprint_name max_results boards with
      | (.error e, tr) => (.error e, rb :: tr)
      | (.ok (some j), tr) => (.ok j, rb :: tr)
      | (.ok none, tr) =>
        (.ok (.obj [("error", .str ("Sprint \x27" ++ sprint_name
            ++ "\x27 not found in any board"))]), rb :: tr)

/-- A sprint-list request for `bid`/`st` succeeds and contains no sprint
matching `name` (for reasoning about the scan's miss prefix). -/
def stateMisses (env : Env) (name : String) (bid : String) (st : String) : Prop :=
  ∃ data vals, env (Req.sprints bid st) = .ok data
    ∧ dotGet data "values" (.arr []) = .ok (.arr vals)
    ∧ first_matching_sprint name vals = .ok none

theorem first_matching_append {name : String} {pre : List JVal} {sp : JVal}
    (post : List JVal) (hpre : first_matching_sprint name pre = .ok none)
    (hsp : sprintNameMatches name sp = .ok true) :
    first_matching_sprint name (pre ++ sp :: post) = .ok (some sp) := by
  induction pre with
  | nil => simp [first_matching_sprint, hsp]
  | cons q pre ih =>
    cases hm : sprintNameMatches name q with
    | error e => simp [first_matching_sprint, hm] at hpre
    | ok b =>
      cases b with
      | true => simp [first_matching_sprint, hm] at hpre
      | false =>
        simp only [first_matching_sprint, hm] at hpre ⊢
        simp at hpre ⊢
        exact ih hpre

theorem sprint_scan_states_misses {env : Env} {name : String} {mr : Nat}
    {board board_id : JVal} :
    ∀ sts : List String, (∀ s ∈ sts, stateMisses env name (pyStrOf board_id) s) →
      sprint_scan_states env name mr board board_id sts
        = (.ok none, sts.map (fun s => Req.sprints (pyStrOf board_id) s)) := by
  intro sts
  induction sts with
  | nil => intro _; rfl
  | cons st rest ih =>
    intro h
    obtain ⟨data, vals, h1, h2, h3⟩ := h st (by simp)
    have hrest := ih (fun s hs => h s (by simp [hs]))
    simp [sprint_scan_states, h1, h2, pyIter, h3, hrest]

theorem sprint_scan_states_hit {env : Env} {name : String} {mr : Nat}
    {board board_id : JVal} {st : String} {states2 : List String}
    {sdata idata sp spid : JVal} {pre post : List JVal}
    (hsdata : env (Req.sprints (pyStrOf board_id) st) = .ok sdata)
    (hsvals : dotGet sdata "values" (.arr []) = .ok (.arr (pre ++ sp :: post)))
    (hpre : first_matching_sprint name pre = .ok none)
    (hsp : sprintNameMatches name sp = .ok true)
    (hspid : dotGet sp "id" JVal.null = .ok spid)
    (hissues : env (Req.sprintIssues (pyStrOf spid) mr 0 sprintIssuesFields) = .ok idata) :
    ∀ states1 : List String, (∀ s ∈ states1, stateMisses env name (pyStrOf board_id) s) →
      sprint_scan_states env name mr board board_id (states1 ++ st :: states2)
        = (Except.map some (sprint_issues_result board board_id sp spid idata),
           states1.map (fun s => Req.sprints (pyStrOf board_id) s)
             ++ [Req.sprints (pyStrOf board_id) st,
                 Req.sprintIssues (pyStrOf spid) mr 0 sprintIssuesFields]) := by
  intro states1
  induction states1 with
  | nil =>
    intro _
    have hfind := first_matching_append post hpre hsp
    simp [sprint_scan_states, hsdata, hsvals, pyIter, hfind, hspid, hissues]
  | cons s1 rest ih =>
    intro h
    obtain ⟨data, vals, h1, h2, h3⟩ := h s1 (by simp)
    have hrest := ih (fun s hs => h s (by simp [hs]))
    simp [sprint_scan_states, h1, h2, pyIter, h3, hrest]

/-- Miss hypothesis for a whole board (paired with its extracted id). -/
def boardMisses (env : Env) (name : String) (p : JVal × JVal) : Prop :=
  dotGet p.1 "id" JVal.null = .ok p.2
    ∧ ∀ s ∈ sprintStates, stateMisses env name (pyStrOf p.2) s

theorem sprint_scan_boards_misses {env : Env} {name : String} {mr : Nat} :
    ∀ bs : List (JVal × JVal), (∀ p ∈ bs, boardMisses env name p) →
      sprint_scan_boards env name mr (bs.map Prod.fst)
        = (.ok none, bs.flatMap (fun p =>
            sprintStates.map (fun s => Req.sprints (pyStrOf p.2) s))) := by
  intro bs
  induction bs with
  | nil => intro _; rfl
  | cons p rest ih =>
    intro h
    obtain ⟨hid, hmiss⟩ := h p (by simp)
    have hstates := @sprint_scan_states_misses env name mr p.1 p.2 sprintStates hmiss
    have hrest := ih (fun q hq => h q (by simp [hq]))
    simp [sprint_scan_boards, hid, hstates, hrest]

theorem sprint_scan_boards_hit {env : Env} {name : String} {mr : Nat}
    {b bid : JVal} {rest : List JVal} {R : Except PyErr JVal} {trb : List Req}
    (hbid : dotGet b "id" JVal.null = .ok bid)
    (hb : sprint_scan_states env name mr b bid sprintStates = (Except.map some R, trb)) :
    ∀ bs1 : List (JVal × JVal), (∀ p ∈ bs1, boardMisses env name p) →
      sprint_scan_boards env name mr (bs1.map Prod.fst ++ b :: rest)
        = (Except.map some R,
           bs1.flatMap (fun p => sprintStates.map (fun s => Req.sprints (pyStrOf p.2) s))
             ++ trb) := by
  intro bs1
  induction bs1 with
  | nil =>
    intro _
    cases R with
    | error e => simp [sprint_scan_boards, hbid, hb, Except.map]
    | ok j => simp [sprint_scan_boards, hbid, hb, Except.map]
  | cons p rest1 ih =>
    intro h
    obtain ⟨hid, hmiss⟩ := h p (by simp)
    have hstates := @sprint_scan_states_misses env name mr p.1 p.2 sprintStates hmiss
    have hrest := ih (fun q hq => h q (by simp [hq]))
    simp [sprint_scan_boards, hid, hstates, hrest]

/-- C5: `get_sprint_issues_by_name` scans the boards returned by the single
board-list request in order and, per board, the sprint states in the fixed
order active, closed, future; the first sprint whose name matches (the
matcher being case-insensitive exact equality, second conjunct) wins; upon
the match exactly one further request — that sprint's issues — is issued,
the combined board/sprint/issues result is returned, and no later board,
state or sprint produces a request (the trace below is exhaustive, with
`post`, `brest` and `states2` arbitrary). -/
theorem C5_sprint_locator_scan
    (env : Env) (name : String) (mr : Nat)
    (bdata : JVal) (boards1 : List (JVal × JVal)) (b bid : JVal) (brest : List JVal)
    (states1 : List String) (st : String) (states2 : List String)
    (sdata : JVal) (pre : List JVal) (sp spid : JVal) (post : List JVal) (idata : JVal)
    (hsplit : sprintStates = states1 ++ st :: states2)
    (hboards : env (Req.boards 100) = .ok bdata)
    (hbvals : dotGet bdata "values" (.arr [])
      = .ok (.arr (boards1.map Prod.fst ++ b :: brest)))
    (hmiss : ∀ p ∈ boards1, boardMisses env name p)
    (hbid : dotGet b "id" JVal.null = .ok bid)
    (hmiss1 : ∀ s ∈ states1, stateMisses env name (pyStrOf bid) s)
    (hsdata : env (Req.sprints (pyStrOf bid) st) = .ok sdata)
    (hsvals : dotGet sdata "values" (.arr []) = .ok (.arr (pre ++ sp :: post)))
    (hpre : first_matching_sprint name pre = .ok none)
    (hsp : sprintNameMatches name sp = .ok true)
    (hspid : dotGet sp "id" JVal.null = .ok spid)
    (hissues : env (Req.sprintIssues (pyStrOf spid) mr 0 sprintIssuesFields) = .ok idata) :
    get_sprint_issues_by_name env name mr
      = (sprint_issues_result b bid sp spid idata,
         Req.boards 100
           :: (boards1.flatMap (fun p =>
                sprintStates.map (fun s => Req.sprints (pyStrOf p.2) s))
             ++ (states1.map (fun s => Req.sprints (pyStrOf bid) s)
               ++ [Req.sprints (pyStrOf bid) st,
                   Req.sprintIssues (pyStrOf spid) mr 0 sprintIssuesFields])))
    ∧ ∀ s t : String,
        sprintNameMatches t (.obj [("name", .str s)]) = .ok (pyLower s == pyLower t) := by
  constructor
  · have hstates := @sprint_scan_states_hit env name mr b bid st states2 sdata idata
      sp spid pre post hsdata hsvals hpre hsp hspid hissues states1 hmiss1
    have hb : sprint_scan_states env name mr b bid sprintStates
        = (Except.map some (sprint_issues_result b bid sp spid idata),
           states1.map (fun s => Req.sprints (pyStrOf bid) s)
             ++ [Req.sprints (pyStrOf bid) st,
                 Req.sprintIssues (pyStrOf spid) mr 0 sprintIssuesFields]) := by
      rw [hsplit]; exact hstates
    have hbs := @sprint_scan_boards_hit env name mr b bid brest
      (sprint_issues_result b bid sp spid idata) _ hbid hb boards1 hmiss
    cases hR : sprint_issues_result b bid sp spid idata with
    | error e =>
      rw [hR] at hbs
      simp [get_sprint_issues_by_name, hboards, hbvals, pyIter, hbs, Except.map]
    | ok j =>
      rw [hR] at hbs
      simp [get_sprint_issues_by_name, hboards, hbvals, pyIter, hbs, Except.map]
  · intro s t
    rfl

theorem find_sprint_states_misses {env : Env} {board_id name : String} :
    ∀ sts : List String, (∀ s ∈ sts, stateMisses env name board_id s) →
      find_sprint_states env board_id name sts
        = (.ok (.obj [("found", .bool false),
            ("message", .str ("Sprint \x27" ++ name ++ "\x27 not found"))]),
           sts.map (Req.sprints board_id)) := by
  intro sts
  induction sts with
  | nil => intro _; rfl
  | cons st rest ih =>
    intro h
    obtain ⟨data, vals, h1, h2, h3⟩ := h st (by simp)
    have hrest := ih (fun s hs => h s (by simp [hs]))
    simp [find_sprint_states, h1, h2, pyIter, h3, hrest]

/-- C6: when no board/state combination contains a sprint whose name
matches the requested one case-insensitively, `find_sprint_ID_by_name`
returns the structured JSON `found: false` with a message naming the
sprint, and `get_sprint_issues_by_name` returns the structured error JSON
naming the sprint — neither raises. -/
theorem C6_sprint_not_found :
    (∀ (env : Env) (board_id name : String),
      (∀ s ∈ sprintStates, stateMisses env name board_id s) →
      find_sprint_ID_by_name env board_id name
        = (.ok (.obj [("found", .bool false),
            ("message", .str ("Sprint \x27" ++ name ++ "\x27 not found"))]),
           sprintStates.map (Req.sprints board_id)))
    ∧ ∀ (env : Env) (name : String) (mr : Nat) (bdata : JVal)
        (bs : List (JVal × JVal)),
        env (Req.boards 100) = .ok bdata →
        dotGet bdata "values" (.arr []) = .ok (.arr (bs.map Prod.fst)) →
        (∀ p ∈ bs, boardMisses env name p) →
        (get_sprint_issues_by_name env name mr).1
          = .ok (.obj [("error", .str ("Sprint \x27" ++ name
              ++ "\x27 not found in any board"))]) := by
  constructor
  · intro env board_id name h
    exact find_sprint_states_misses sprintStates h
  · intro env name mr bdata bs h1 h2 h3
    have hbs := @sprint_scan_boards_misses env name mr bs h3
    simp [get_sprint_issues_by_name, h1, h2, pyIter, hbs]

/-! ### Concrete sprint-scan scenario (spec section 8): boards [B1, B2],
only B2/closed holds "Sprint X", requested as "sprint x". -/

def boardB1 : JVal := .obj [("id", .num 1), ("name", .str "B1"), ("type", .str "scrum")]

def boardB2 : JVal := .obj [("id", .num 2), ("name", .str "B2"), ("type", .str "scrum")]

def sprintX : JVal := .obj [("id", .num 42), ("name", .str "Sprint X"),
  ("state", .str "closed"), ("startDate", .str "2024-03-01"),
  ("endDate", .str "2024-03-14"), ("goal", .str "ship")]

def sprintY : JVal := .obj [("id", .num 7), ("name", .str "Sprint Y"),
  ("state", .str "active")]

def noSprints : JVal := .obj [("values", .arr [])]

def envSprints : Env := fun r =>
  match r with
  | .boards _ => .ok (.obj [("values", .arr [boardB1, boardB2])])
  | .sprints "2" "active" => .ok (.obj [("values", .arr [sprintY])])
  | .sprints "2" "closed" => .ok (.obj [("values", .arr [sprintX])])
  | .sprints _ _ => .ok noSprints
  | .sprintIssues _ _ _ _ => .ok (.obj [("total", .num 1),
      ("issues", .arr [.obj [("key", .str "SCRUM-9")]])])
  | _ => .ok .null

theorem envSprints_boardB1_misses : boardMisses envSprints "sprint x" (boardB1, .num 1) := by
  refine ⟨rfl, ?_⟩
  intro s hs
  simp [sprintStates] at hs
  rcases hs with h | h | h <;> subst h <;>
    exact ⟨noSprints, [], rfl, rfl, rfl⟩

/-- Witness for C5: in the concrete scenario the locator returns B2's id
with the sprint's fields and the issue list, having queried B1's three
states and B2's active and closed states (in that order) plus the single
issues fetch — and nothing else. -/
theorem C5_sprint_locator_scan_witness :
    get_sprint_issues_by_name envSprints "sprint x" 100
      = (.ok (.obj [("board_info", .obj [("board_id", .num 2),
            ("board_name", .str "B2"), ("board_type", .str "scrum")]),
          ("sprint_info", .obj [("sprint_id", .num 42),
            ("sprint_name", .str "Sprint X"), ("state", .str "closed"),
            ("start_date", .str "2024-03-01"), ("end_date", .str "2024-03-14"),
            ("goal", .str "ship")]),
          ("total_issues", .num 1), ("returned_issues", .num 1),
          ("issues", .arr [.obj [("key", .str "SCRUM-9")]])]),
         [Req.boards 100,
          Req.sprints "1" "active", Req.sprints "1" "closed", Req.sprints "1" "future",
          Req.sprints "2" "active", Req.sprints "2" "closed",
          Req.sprintIssues "42" 100 0 sprintIssuesFields]) := by
  have h := (C5_sprint_locator_scan envSprints "sprint x" 100
    (.obj [("values", .arr [boardB1, boardB2])])
    [(boardB1, .num 1)] boardB2 (.num 2) []
    ["active"] "closed" ["future"]
    (.obj [("values", .arr [sprintX])]) [] sprintX (.num 42) []
    (.obj [("total", .num 1), ("issues", .arr [.obj [("key", .str "SCRUM-9")]])])
    rfl rfl rfl
    (by intro p hp; simp at hp; subst hp; exact envSprints_boardB1_misses)
    rfl
    (by intro s hs
        simp at hs
        subst hs
        exact ⟨.obj [("values", .arr [sprintY])], [sprintY], rfl, rfl, rfl⟩)
    rfl rfl rfl rfl rfl rfl).1
  exact h

def envNoMatch : Env := fun r =>
  match r with
  | .boards _ => .ok (.obj [("values", .arr [boardB1])])
  | .sprints _ _ => .ok (.obj [("values", .arr [sprintY])])
  | _ => .ok .null

/-- Witness for C6: an environment with one board whose every state holds
only the non-matching "Sprint Y" makes both locators return their
structured not-found JSON naming the requested sprint. -/
theorem C6_sprint_not_found_witness :
    (find_sprint_ID_by_name envNoMatch "1" "Sprint Z").1
      = .ok (.obj [("found", .bool false),
          ("message", .str "Sprint \x27Sprint Z\x27 not found")])
    ∧ (get_sprint_issues_by_name envNoMatch "Sprint Z" 100).1
      = .ok (.obj [("error", .str "Sprint \x27Sprint Z\x27 not found in any board")]) := by
  have hmiss : ∀ s ∈ sprintStates, stateMisses envNoMatch "Sprint Z" "1" s := by
    intro s hs
    simp [sprintStates] at hs
    rcases hs with h | h | h <;> subst h <;>
      exact ⟨.obj [("values", .arr [sprintY])], [sprintY], rfl, rfl, rfl⟩
  constructor
  · have h := (C6_sprint_not_found).1 envNoMatch "1" "Sprint Z" hmiss
    rw [h]
    rfl
  · exact (C6_sprint_not_found).2 envNoMatch "Sprint Z" 100
      (.obj [("values", .arr [boardB1])]) [(boardB1, .num 1)]
      rfl rfl
      (by intro p hp
          simp at hp
          subst hp
          exact ⟨rfl, hmiss⟩)

/-! ### `get_issues_by_assignee` (src/tools/jira_tools.py lines 554-769) -/

theorem except_bind_ok {ε α β : Type} {x : Except ε α} {f : α → Except ε β} {r : β}
    (h : (x >>= f) = .ok r) : ∃ a, x = .ok a ∧ f a = .ok r := by
  cases x with
  | ok a => exact ⟨a, rfl, h⟩
  | error e => cases h

/-- A Python loop that appends at most one element per iteration
(`continue` skips) and propagates raised errors. -/
def filterMapExcept (f : JVal → Except PyErr (Option JVal)) :
    List JVal → Except PyErr (List JVal)
  | [] => .ok []
  | x :: rest => do
    let y ← f x
    let ys ← filterMapExcept f rest
    pure (match y with | some v => v :: ys | none => ys)

theorem filterMapExcept_skip (f : JVal → Except PyErr (Option JVal)) {x : JVal}
    (hx : f x = .ok none) :
    ∀ l1 l2, filterMapExcept f (l1 ++ x :: l2) = filterMapExcept f (l1 ++ l2) := by
  intro l1 l2
  induction l1 with
  | nil =>
    simp [filterMapExcept, hx]
    cases filterMapExcept f l2 <;> rfl
  | cons y l1 ih => simp [filterMapExcept, ih]

/-- One comment of a comment list (lines 691-700 and 622-631): skipped when
falsy, author guarded against null. -/
def build_comment (c : JVal) : Except PyErr (Option JVal) :=
  if pyFalsy c then .ok none
  else do
    let author ← dotGet c "author" (.obj [])
    let author_name ← if pyTruthy author then dotGet author "displayName" (.str "Unknown")
      else pure (.str "Unknown")
    let bodyRaw ← dotGet c "body" (.str "")
    let body ← extract_text_from_adf bodyRaw
    pure (some (.obj [("author", author_name), ("body", .str body)]))

/-- One change item of a history entry (`{"field": ..., "from": ...,
"to": ...}`). -/
def build_change_item (i : JVal) : Except PyErr JVal := do
  let f ← dotGet i "field" (.str "")
  let fr ← dotGet i "fromString" (.str "")
  let toS ← dotGet i "toString" (.str "")
  pure (.obj [("field", f), ("from", fr), ("to", toS)])

/-- One changelog history entry (lines 706-719 and 637-650): skipped when
falsy; its items comprehension filters falsy entries. -/
def build_history (h : JVal) : Except PyErr (Option JVal) :=
  if pyFalsy h then .ok none
  else do
    let author ← dotGet h "author" (.obj [])
    let author_name ← if pyTruthy author then dotGet author "displayName" (.str "Unknown")
      else pure (.str "Unknown")
    let created ← dotGet h "created" (.str "")
    let itemsRaw ← dotGet h "items" (.arr [])
    let itemsList ← pyIter itemsRaw
    let items ← filterMapExcept
      (fun i => if pyFalsy i then .ok none else Except.map some (build_change_item i))
      itemsList
    pure (some (.obj [("author", author_name), ("created", created),
      ("items", .arr items)]))

/-- The `if sub_comment_obj:` guarded comment extraction (lines 687-700,
and identically 617-631 at issue level). -/
def extract_comments (comment_obj : JVal) : Except PyErr (List JVal) :=
  if pyTruthy comment_obj then do
    let cd ← dotGet comment_obj "comments" (.arr [])
    let cl ← pyIter cd
    filterMapExcept build_comment cl
  else pure []

/-- The `if changelog:` guarded history extraction (lines 702-719, and
identically 633-650 at issue level). -/
def extract_histories (changelog : JVal) : Except PyErr (List JVal) :=
  if pyTruthy changelog then do
    let hsRaw ← dotGet changelog "histories" (.arr [])
    let hl ← pyIter hsRaw
    filterMapExcept build_history hl
  else pure []

/-- `x.get('name', '') if x else ''` (status/priority/type/project names). -/
def guardedName (x : JVal) : Except PyErr JVal :=
  if pyTruthy x then dotGet x "name" (.str "") else pure (.str "")

def subtaskFields : String := "summary,description,status,comment"

/-- The body of the per-subtask `try` block (lines 664-729): fetch the
subtask with its changelog, then assemble the expanded payload; `ok none`
models the `continue` guards on empty responses. -/
def build_subtask (env : Env) (sub_key : JVal) : Except PyErr (Option JVal) :=
  match env (Req.issue (pyStrOf sub_key) "changelog" subtaskFields) with
  | .error st => .error (.httpError st)
  | .ok sub_data =>
    if pyFalsy sub_data then .ok none
    else do
      let sub_fields ← dotGet sub_data "fields" (.obj [])
      if pyFalsy sub_fields then pure none
      else do
        let descRaw ← dotGet sub_fields "description" (.str "")
        let sub_description ← extract_text_from_adf descRaw
        let sub_comment_obj ← dotGet sub_fields "comment" (.obj [])
        let sub_comments ← extract_comments sub_comment_obj
        let sub_changelog ← dotGet sub_data "changelog" (.obj [])
        let sub_history ← extract_histories sub_changelog
        let status ← dotGet sub_fields "status" (.obj [])
        let skey ← dotGet sub_data "key" (.str "")
        let summary ← dotGet sub_fields "summary" (.str "")
        let statusName ← guardedName status
        pure (some (.obj [("key", skey), ("summary", summary),
          ("description", .str sub_description), ("status", statusName),
          ("comments", .arr sub_comments), ("history", .arr sub_history)]))

/-- One iteration of the subtask loop (lines 656-732): falsy entries and
missing keys are skipped; any exception inside the `try` (HTTP failure
included) makes the subtask silently omitted (`except Exception:
continue`); but `sub.get('key')` on a non-dict truthy entry raises outside
the `try`. -/
def process_subtask (env : Env) (sub : JVal) : Except PyErr (Option JVal) :=
  if pyFalsy sub then .ok none
  else match sub with
  | .obj sfields =>
    let sub_key := pyGet sfields "key" JVal.null
    if pyFalsy sub_key then .ok none
    else match build_subtask env sub_key with
      | .ok v => .ok v
      | .error _ => .ok none
  | _ => .error .attributeError

def process_subtasks (env : Env) (subs : List JVal) : Except PyErr (List JVal) :=
  filterMapExcept (process_subtask env) subs

def issueFetchFields : String :=
  "summary,description,status,comment,subtasks,created,updated,priority,issuetype,project"

/-- The body of the per-issue `try` block of `get_issues_by_assignee`
(lines 596-755): refetch the issue with changelog, extract description,
comments, history and the expanded subtasks, then assemble the formatted
issue. -/
def build_issue (env : Env) (issue_key : JVal) : Except PyErr (Option JVal) :=
  match env (Req.issue (pyStrOf issue_key) "changelog" issueFetchFields) with
  | .error st => .error (.httpError st)
  | .ok issue_data =>
    if pyFalsy issue_data then .ok none
    else do
      let fields ← dotGet issue_data "fields" (.obj [])
      if pyFalsy fields then pure none
      else do
        let descRaw ← dotGet fields "description" (.str "")
        let description ← extract_text_from_adf descRaw
        let comment_obj ← dotGet fields "comment" (.obj [])
        let comments ← extract_comments comment_obj
        let changelog ← dotGet issue_data "changelog" (.obj [])
        let history ← extract_histories changelog
        let subsRaw ← dotGet fields "subtasks" (.arr [])
        let subs ← pyIter subsRaw
        let subtasks ← process_subtasks env subs
        let priority ← dotGet fields "priority" (.obj [])
        let issuetype ← dotGet fields "issuetype" (.obj [])
        let project ← dotGet fields "project" (.obj [])
        let status ← dotGet fields "status" (.obj [])
        let key ← dotGet issue_data "key" (.str "")
        let summary ← dotGet fields "summary" (.str "")
        let statusName ← guardedName status
        let priorityName ← guardedName priority
        let typeName ← guardedName issuetype
        let projectName ← guardedName project
        let created ← dotGet fields "created" (.str "")
        let updated ← dotGet fields "updated" (.str "")
        pure (some (.obj [("key", key), ("summary", summary),
          ("description", .str description), ("status", statusName),
          ("priority", priorityName), ("issue_type", typeName),
          ("project", projectName), ("created", created), ("updated", updated),
          ("comments", .arr comments), ("history", .arr history),
          ("subtasks", .arr subtasks)]))

/-- One iteration of the outer issue loop (lines 590-758): the whole body
sits in a `try` whose `except Exception` skips the issue, so this never
raises. -/
def process_issue (env : Env) (isum : JVal) : Option JVal :=
  match (do
    let issue_key ← dotGet isum "key" JVal.null
    if pyFalsy issue_key then pure none
    else build_issue env issue_key : Except PyErr (Option JVal)) with
  | .ok v => v
  | .error _ => none

/-- `get_issues_by_assignee(assignee_email, max_results, start_at)`. -/
def get_issues_by_assignee (env : Env) (assignee_email : String)
    (max_results start_at : Nat) : Except PyErr JVal :=
  let jql := "assignee = \"" ++ assignee_email ++ "\" ORDER BY updated DESC"
  match env (Req.search jql max_results start_at issueFetchFields) with
  | .error st => .error (.httpError st)
  | .ok data =>
    if pyFalsy data then .ok (.obj [("error", .str "No data returned from API")])
    else do
      let issuesRaw ← dotGet data "issues" (.arr [])
      let items ← pyIter issuesRaw
      let formatted := items.filterMap (process_issue env)
      let total ← dotGet data "total" (.num 0)
      pure (.obj [("assignee", .str assignee_email), ("total_issues", total),
        ("returned_issues", .num formatted.length), ("start_at", .num start_at),
        ("max_results", .num max_results), ("issues", .arr formatted)])

theorem build_subtask_shape {env : Env} {k v : JVal}
    (h : build_subtask env k = .ok (some v)) :
    ∃ skey summary desc statusName comments history,
      v = .obj [("key", skey), ("summary", summary), ("description", .str desc),
        ("status", statusName), ("comments", .arr comments),
        ("history", .arr history)] := by
  unfold build_subtask at h
  cases henv : env (Req.issue (pyStrOf k) "changelog" subtaskFields) with
  | error st => rw [henv] at h; cases h
  | ok sub_data =>
    rw [henv] at h
    dsimp only at h
    by_cases hd : pyFalsy sub_data
    · simp [hd] at h
    · rw [if_neg hd] at h
      obtain ⟨sub_fields, _, h⟩ := except_bind_ok h
      by_cases hf : pyFalsy sub_fields
      · simp [hf] at h
      · rw [if_neg hf] at h
        obtain ⟨descRaw, _, h⟩ := except_bind_ok h
        obtain ⟨desc, _, h⟩ := except_bind_ok h
        obtain ⟨comment_obj, _, h⟩ := except_bind_ok h
        obtain ⟨comments, _, h⟩ := except_bind_ok h
        obtain ⟨changelog, _, h⟩ := except_bind_ok h
        obtain ⟨history, _, h⟩ := except_bind_ok h
        obtain ⟨status, _, h⟩ := except_bind_ok h
        obtain ⟨skey, _, h⟩ := except_bind_ok h
        obtain ⟨summary, _, h⟩ := except_bind_ok h
        obtain ⟨statusName, _, h⟩ := except_bind_ok h
        simp only [exceptPure_eq_ok, Except.ok.injEq, Option.some.injEq] at h
        exact ⟨skey, summary, desc, statusName, comments, history, h.symm⟩

/-- C7: in the batched-assignee aggregation, a subtask whose fetch fails
with an HTTP error is silently omitted — the subtask loop produces exactly
the output it would produce without that entry, leaving every other
subtask's result unaffected — and every successfully expanded subtask
payload carries the full key/summary/description/status/comments/history
fields. -/
theorem C7_failed_subtask_omitted :
    (∀ (env : Env) (l1 l2 : List JVal) (sfields : List (String × JVal))
        (subkey : JVal) (st : Nat),
      pyGet sfields "key" JVal.null = subkey →
      pyFalsy subkey = false →
      env (Req.issue (pyStrOf subkey) "changelog" subtaskFields) = .error st →
      process_subtasks env (l1 ++ JVal.obj sfields :: l2)
        = process_subtasks env (l1 ++ l2))
    ∧ ∀ (env : Env) (sub v : JVal), process_subtask env sub = .ok (some v) →
        ∃ skey summary desc statusName comments history,
          v = .obj [("key", skey), ("summary", summary), ("description", .str desc),
            ("status", statusName), ("comments", .arr comments),
            ("history", .arr history)] := by
  constructor
  · intro env l1 l2 sfields subkey st hk hkt henv
    have hobj : pyFalsy (.obj sfields) = false := by
      cases sfields with
      | nil =>
        simp [pyGet, lookup] at hk
        subst hk
        simp [pyFalsy] at hkt
      | cons p r => simp [pyFalsy]
    have hps : process_subtask env (.obj sfields) = .ok none := by
      simp [process_subtask, hobj, hk, hkt, build_subtask, henv]
    exact filterMapExcept_skip (process_subtask env) hps l1 l2
  · intro env sub v h
    unfold process_subtask at h
    by_cases hs : pyFalsy sub
    · simp [hs] at h
    · rw [if_neg hs] at h
      cases sub with
      | obj sfields =>
        dsimp only at h
        by_cases hkf : pyFalsy (pyGet sfields "key" JVal.null)
        · simp [hkf] at h
        · rw [if_neg hkf] at h
          cases hb : build_subtask env (pyGet sfields "key" JVal.null) with
          | ok w =>
            rw [hb] at h
            injection h with h2
            subst h2
            exact build_subtask_shape hb
          | error e => rw [hb] at h; cases h
      | null => cases h
      | bool b => cases h
      | num n => cases h
      | str s => cases h
      | arr xs => cases h

def subS1 : JVal := .obj [("key", .str "SCRUM-5")]

def subS2 : JVal := .obj [("key", .str "SCRUM-6")]

def subData1 : JVal := .obj [("key", .str "SCRUM-5"),
  ("fields", .obj [("summary", .str "Sub one"), ("description", .str "desc"),
    ("status", .obj [("name", .str "Done")]),
    ("comment", .obj [("comments", .arr [.obj [
      ("author", .obj [("displayName", .str "Ann")]), ("body", .str "hi")]])])]),
  ("changelog", .obj [("histories", .arr [.obj [
    ("author", .obj [("displayName", .str "Bob")]), ("created", .str "t1"),
    ("items", .arr [.obj [("field", .str "status"),
      ("fromString", .str "To Do"), ("toString", .str "Done")]])]])])]

def parentIssueData : JVal := .obj [("key", .str "SCRUM-4"),
  ("fields", .obj [("summary", .str "Parent"), ("description", .str "d"),
    ("status", .obj [("name", .str "In Progress")]),
    ("subtasks", .arr [subS1, subS2])])]

def envAssignee : Env := fun r =>
  match r with
  | .search _ _ _ _ => .ok (.obj [("total", .num 1),
      ("issues", .arr [.obj [("key", .str "SCRUM-4")]])])
  | .issue "SCRUM-4" _ _ => .ok parentIssueData
  | .issue "SCRUM-5" _ _ => .ok subData1
  | .issue "SCRUM-6" _ _ => .error 404
  | _ => .ok .null

def subPayload1 : JVal := .obj [("key", .str "SCRUM-5"), ("summary", .str "Sub one"),
  ("description", .str "desc"), ("status", .str "Done"),
  ("comments", .arr [.obj [("author", .str "Ann"), ("body", .str "hi")]]),
  ("history", .arr [.obj [("author", .str "Bob"), ("created", .str "t1"),
    ("items", .arr [.obj [("field", .str "status"), ("from", .str "To Do"),
      ("to", .str "Done")]])]])]

/-- Witness for C7: subtask SCRUM-6's fetch fails (404), so the subtask
loop over [SCRUM-5, SCRUM-6] equals the loop over [SCRUM-5] alone; the
successfully fetched SCRUM-5 carries the fully expanded payload; and the
whole `get_issues_by_assignee` call still succeeds with the failing
subtask simply absent. -/
theorem C7_failed_subtask_omitted_witness :
    process_subtasks envAssignee [subS1, subS2] = process_subtasks envAssignee [subS1]
    ∧ (∃ skey summary desc statusName comments history,
        subPayload1 = JVal.obj [("key", skey), ("summary", summary),
          ("description", .str desc), ("status", statusName),
          ("comments", .arr comments), ("history", .arr history)])
    ∧ get_issues_by_assignee envAssignee "dev@example.com" 50 0
      = .ok (.obj [("assignee", .str "dev@example.com"), ("total_issues", .num 1),
          ("returned_issues", .num 1), ("start_at", .num 0), ("max_results", .num 50),
          ("issues", .arr [.obj [("key", .str "SCRUM-4"), ("summary", .str "Parent"),
            ("description", .str "d"), ("status", .str "In Progress"),
            ("priority", .str ""), ("issue_type", .str ""), ("project", .str ""),
            ("created", .str ""), ("updated", .str ""),
            ("comments", .arr []), ("history", .arr []),
            ("subtasks", .arr [subPayload1])]])]) :=
  ⟨C7_failed_subtask_omitted.1 envAssignee [subS1] [] [("key", .str "SCRUM-6")]
      (.str "SCRUM-6") 404 rfl rfl rfl,
   C7_failed_subtask_omitted.2 envAssignee subS1 subPayload1 rfl,
   rfl⟩

/-! ### Confluence link resolver
(`get_jira_issue_confluence_content`, src/tools/confluence_tools.py lines
99-202 — the later, superset definition — and `extract_page_id`, lines
131-139) -/

/-- Substring test on character lists. -/
def isInfixOfCL (needle : List Char) : List Char → Bool
  | [] => needle.isEmpty
  | hay@(_ :: t) => needle.isPrefixOf hay || isInfixOfCL needle t

/-- Python `needle in hay` substring test. -/
def pyContains (needle hay : String) : Bool :=
  isInfixOfCL needle.toList hay.toList

/-- Leftmost-match `re.search`: try the position matcher at every suffix,
left to right. -/
def reSearch (f : List Char → Option String) : List Char → Option String
  | [] => f []
  | l@(_ :: rest) =>
    match f l with
    | some r => some r
    | none => reSearch f rest

/-- Position matcher for `[?&]pageId=(\d+)`: a `?` or `&`, the literal
`pageId=`, then at least one digit; the capture is the maximal digit run
(`\d+` is greedy and nothing follows it in the pattern). -/
def pageIdParamAt : List Char → Option String
  | [] => none
  | c :: rest =>
    if (c = '?' || c = '&') && "pageId=".toList.isPrefixOf rest then
      let ds := (rest.drop 7).takeWhile Char.isDigit
      if ds.isEmpty then none else some (String.mk ds)
    else none

/-- Position matcher for `/spaces/[^/]+/pages/(\d+)`: since `[^/]+` cannot
match `/` and the following literal starts with `/`, the only viable match
takes the maximal non-`/` run as the space segment; the capture is again
the maximal digit run. -/
def spacesPagesAt (l : List Char) : Option String :=
  if "/spaces/".toList.isPrefixOf l then
    let rest := l.drop 8
    let seg := rest.takeWhile (fun c => c ≠ '/')
    if seg.isEmpty then none
    else
      let rest2 := rest.drop seg.length
      if "/pages/".toList.isPrefixOf rest2 then
        let ds := (rest2.drop 7).takeWhile Char.isDigit
        if ds.isEmpty then none else some (String.mk ds)
      else none
  else none

/-- `extract_page_id(confluence_url)`: the query-parameter pattern is tried
first, the `/spaces/<space>/pages/<digits>` path pattern second. -/
def extract_page_id (confluence_url : String) : Option String :=
  match reSearch pageIdParamAt confluence_url.toList with
  | some r => some r
  | none => reSearch spacesPagesAt confluence_url.toList

/-- A rendering of Python `str(e)` for the caught exception (the wording
of the interpreter's message is abstracted; only its presence matters). -/
def pyErrStr : PyErr → String
  | .attributeError => "AttributeError"
  | .typeError => "TypeError"
  | .httpError st => "HTTP " ++ toString st

def pageExpand : String := "body.storage,body.view,version,space"

/-- The fully fetched Page Reference entry (lines 165-177). -/
def full_page_entry (link obj page_data : JVal) (page_id url_str : String) :
    Except PyErr JVal := do
  let link_id ← dotGet link "id" .null
  let default_title ← dotGet obj "title" (.str "Untitled")
  let title ← dotGet page_data "title" default_title
  let space ← dotGet page_data "space" (.obj [])
  let space_name ← dotGet space "name" (.str "Unknown")
  let space_key ← dotGet space "key" (.str "")
  let version ← dotGet page_data "version" (.obj [])
  let version_number ← dotGet version "number" (.num 1)
  let last_modified ← dotGet version "when" (.str "")
  let vby ← dotGet version "by" (.obj [])
  let last_modified_by ← dotGet vby "displayName" (.str "")
  let body ← dotGet page_data "body" (.obj [])
  let view ← dotGet body "view" (.obj [])
  let content_html ← dotGet view "value" (.str "")
  let storage ← dotGet body "storage" (.obj [])
  let content_storage ← dotGet storage "value" (.str "")
  pure (.obj [("link_id", link_id), ("page_id", .str page_id), ("title", title),
    ("url", .str url_str), ("space", space_name), ("space_key", space_key),
    ("version", version_number), ("last_modified", last_modified),
    ("last_modified_by", last_modified_by), ("content_html", content_html),
    ("content_storage", content_storage)])

/-- The `except` branch's Page Reference entry (lines 178-185): identifier,
title and url preserved, content replaced by an error string. -/
def error_page_entry (link obj : JVal) (page_id url_str : String) (e : PyErr) :
    Except PyErr JVal := do
  let link_id ← dotGet link "id" .null
  let title ← dotGet obj "title" (.str "Untitled")
  pure (.obj [("link_id", link_id), ("page_id", .str page_id), ("title", title),
    ("url", .str url_str),
    ("error", .str ("Failed to fetch content: " ++ pyErrStr e))])

/-- The unextractable-identifier Page Reference entry (lines 187-193). -/
def noid_page_entry (link obj : JVal) (url_str : String) : Except PyErr JVal := do
  let link_id ← dotGet link "id" .null
  let title ← dotGet obj "title" (.str "Untitled")
  pure (.obj [("link_id", link_id), ("title", title), ("url", .str url_str),
    ("error", .str "Could not extract page ID from URL")])

/-- One iteration of the `for link in links_data` loop (lines 143-193):
`ok none` means the link is not a Confluence link and is skipped. -/
def process_link (env : Env) (link : JVal) : Except PyErr (Option JVal) := do
  let obj ← dotGet link "object" (.obj [])
  let urlVal ← dotGet obj "url" (.str "")
  match urlVal with
  | .str url_str =>
    if pyContains "/wiki/" url_str || pyContains "confluence" (pyLower url_str) then
      match extract_page_id url_str with
      | some page_id =>
        match (match env (Req.page page_id pageExpand) with
          | .error st => .error (.httpError st)
          | .ok page_data => full_page_entry link obj page_data page_id url_str :
            Except PyErr JVal) with
        | .ok entry => pure (some entry)
        | .error e => do
          let entry ← error_page_entry link obj page_id url_str e
          pure (some entry)
      | none => do
        let entry ← noid_page_entry link obj url_str
        pure (some entry)
    else pure none
  | _ => .error .typeError

/-- `get_jira_issue_confluence_content(issue_key)`. -/
def get_jira_issue_confluence_content (env : Env) (issue_key : String) :
    Except PyErr JVal :=
  match env (Req.issue issue_key "" "summary") with
  | .error st => .error (.httpError st)
  | .ok issue_data =>
    match env (Req.remotelink issue_key) with
    | .error st => .error (.httpError st)
    | .ok links_data => do
      let links ← pyIter links_data
      let confluence_pages ← filterMapExcept (process_link env) links
      let fields ← dotGet issue_data "fields" (.obj [])
      let issue_summary ← dotGet fields "summary" (.str "")
      pure (.obj [("issue_key", .str issue_key), ("issue_summary", issue_summary),
        ("confluence_pages_count", .num confluence_pages.length),
        ("confluence_pages", .arr confluence_pages)])

theorem filterMapExcept_insert (f : JVal → Except PyErr (Option JVal)) {x v : JVal}
    (hx : f x = .ok (some v)) :
    ∀ l1 l2, filterMapExcept f (l1 ++ x :: l2)
      = (filterMapExcept f l1) >>= fun p1 =>
        (filterMapExcept f l2) >>= fun p2 => pure (p1 ++ v :: p2) := by
  intro l1 l2
  induction l1 with
  | nil =>
    cases h2 : filterMapExcept f l2 <;>
      simp [filterMapExcept, hx, h2]
  | cons y l1 ih =>
    simp only [List.cons_append, filterMapExcept, List.append_eq]
    rw [ih]
    cases hfy : f y with
    | error e => rfl
    | ok z =>
      cases h1 : filterMapExcept f l1 with
      | error e => rfl
      | ok p1 =>
        cases h2 : filterMapExcept f l2 with
        | error e => cases z <;> rfl
        | ok p2 => cases z <;> rfl

/-- C8: if fetching the content of one linked Confluence page fails with
an HTTP error, the loop still produces for that link a Page Reference
entry preserving `link_id`, `page_id`, `title` and `url` with an error
string in place of content (first conjunct); and a link that yields an
entry contributes it at its position while leaving the entries of all
other links exactly as they would be computed on their own (second
conjunct) — one bad link never aborts the loop. -/
theorem C8_confluence_fetch_failure :
    (∀ (env : Env) (lfs ofs : List (String × JVal)) (url pid : String) (st : Nat),
      lookup lfs "object" = some (.obj ofs) →
      pyGet ofs "url" (.str "") = .str url →
      (pyContains "/wiki/" url || pyContains "confluence" (pyLower url)) = true →
      extract_page_id url = some pid →
      env (Req.page pid pageExpand) = .error st →
      process_link env (.obj lfs)
        = .ok (some (.obj [("link_id", pyGet lfs "id" JVal.null),
            ("page_id", .str pid), ("title", pyGet ofs "title" (.str "Untitled")),
            ("url", .str url),
            ("error", .str ("Failed to fetch content: "
              ++ pyErrStr (.httpError st)))])))
    ∧ ∀ (env : Env) (l1 l2 : List JVal) (x entry : JVal),
        process_link env x = .ok (some entry) →
        filterMapExcept (process_link env) (l1 ++ x :: l2)
          = (filterMapExcept (process_link env) l1) >>= fun p1 =>
            (filterMapExcept (process_link env) l2) >>= fun p2 =>
              pure (p1 ++ entry :: p2) := by
  constructor
  · intro env lfs ofs url pid st hobj hurl hc hpid henv
    have hurl2 : (lookup ofs "url").getD (.str "") = .str url := hurl
    have hc2 : pyContains "/wiki/" url = true
        ∨ pyContains "confluence" (pyLower url) = true := by simpa using hc
    simp [process_link, dotGet, pyGet, hobj, hurl2, hc2, hpid, henv, error_page_entry]
  · intro env l1 l2 x entry hx
    exact filterMapExcept_insert (process_link env) hx l1 l2

def goodLink : JVal := .obj [("id", .num 100), ("object", .obj [
  ("title", .str "Design doc"),
  ("url", .str "https://x.atlassian.net/wiki/spaces/SP/pages/123456/Design")])]

def badLink : JVal := .obj [("id", .num 101), ("object", .obj [
  ("title", .str "Broken doc"),
  ("url", .str "https://x.atlassian.net/wiki/spaces/SP/pages/999/Broken")])]

def otherLink : JVal := .obj [("id", .num 102), ("object", .obj [
  ("title", .str "GitHub"), ("url", .str "https://github.com/x")])]

def noidLink : JVal := .obj [("id", .num 103), ("object", .obj [
  ("title", .str "Wiki home"), ("url", .str "https://x.atlassian.net/wiki/home")])]

def pageData123 : JVal := .obj [("title", .str "Design"),
  ("space", .obj [("name", .str "Space"), ("key", .str "SP")]),
  ("version", .obj [("number", .num 3), ("when", .str "t"),
    ("by", .obj [("displayName", .str "Cam")])]),
  ("body", .obj [("view", .obj [("value", .str "<p>v</p>")]),
    ("storage", .obj [("value", .str "<p>s</p>")])])]

def envConf : Env := fun r =>
  match r with
  | .issue _ _ _ => .ok (.obj [("fields", .obj [("summary", .str "Parent issue")])])
  | .remotelink _ => .ok (.arr [goodLink, badLink, otherLink, noidLink])
  | .page "123456" _ => .ok pageData123
  | .page _ _ => .error 500
  | _ => .ok .null

def badEntry : JVal := .obj [("link_id", .num 101), ("page_id", .str "999"),
  ("title", .str "Broken doc"),
  ("url", .str "https://x.atlassian.net/wiki/spaces/SP/pages/999/Broken"),
  ("error", .str "Failed to fetch content: HTTP 500")]

def goodEntry : JVal := .obj [("link_id", .num 100), ("page_id", .str "123456"),
  ("title", .str "Design"),
  ("url", .str "https://x.atlassian.net/wiki/spaces/SP/pages/123456/Design"),
  ("space", .str "Space"), ("space_key", .str "SP"), ("version", .num 3),
  ("last_modified", .str "t"), ("last_modified_by", .str "Cam"),
  ("content_html", .str "<p>v</p>"), ("content_storage", .str "<p>s</p>")]

def noidEntry : JVal := .obj [("link_id", .num 103), ("title", .str "Wiki home"),
  ("url", .str "https://x.atlassian.net/wiki/home"),
  ("error", .str "Could not extract page ID from URL")]

/-- Witness for C8: page 999's fetch fails with HTTP 500; its entry keeps
link_id/page_id/title/url with the error string; the loop around it
composes the other links' entries unchanged; and the whole call succeeds
with all three Confluence links represented. -/
theorem C8_confluence_fetch_failure_witness :
    process_link envConf badLink = .ok (some badEntry)
    ∧ (filterMapExcept (process_link envConf) ([goodLink] ++ badLink :: [otherLink, noidLink])
      = (filterMapExcept (process_link envConf) [goodLink]) >>= fun p1 =>
        (filterMapExcept (process_link envConf) [otherLink, noidLink]) >>= fun p2 =>
          pure (p1 ++ badEntry :: p2))
    ∧ get_jira_issue_confluence_content envConf "SCRUM-2"
      = .ok (.obj [("issue_key", .str "SCRUM-2"),
          ("issue_summary", .str "Parent issue"),
          ("confluence_pages_count", .num 3),
          ("confluence_pages", .arr [goodEntry, badEntry, noidEntry])]) :=
  ⟨C8_confluence_fetch_failure.1 envConf
      [("id", .num 101), ("object", .obj [("title", .str "Broken doc"),
        ("url", .str "https://x.atlassian.net/wiki/spaces/SP/pages/999/Broken")])]
      [("title", .str "Broken doc"),
        ("url", .str "https://x.atlassian.net/wiki/spaces/SP/pages/999/Broken")]
      "https://x.atlassian.net/wiki/spaces/SP/pages/999/Broken" "999" 500
      rfl rfl rfl rfl rfl,
   C8_confluence_fetch_failure.2 envConf [goodLink] [otherLink, noidLink]
      badLink badEntry rfl,
   rfl⟩

/-- C9: page-id extraction tries the `pageId=<digits>` query pattern first
and only then the `/spaces/<space>/pages/<digits>` path pattern (first
conjunct, plus the spec's concrete examples — including a URL carrying
both patterns, decided by the first); and a kept Confluence link matching
neither pattern still yields a Page Reference entry carrying the
explanatory error string and no page content. -/
theorem C9_page_id_extraction :
    (∀ (url : String) (r : String), reSearch pageIdParamAt url.toList = some r →
      extract_page_id url = some r)
    ∧ extract_page_id "https://x.atlassian.net/wiki/spaces/SP/pages/123456/Some+Title"
        = some "123456"
    ∧ extract_page_id "https://x.atlassian.net/wiki/view?pageId=987" = some "987"
    ∧ extract_page_id "https://x.atlassian.net/wiki/spaces/SP/pages/111/T?pageId=987"
        = some "987"
    ∧ extract_page_id "https://x.atlassian.net/wiki/other" = none
    ∧ ∀ (env : Env) (lfs ofs : List (String × JVal)) (url : String),
        lookup lfs "object" = some (.obj ofs) →
        pyGet ofs "url" (.str "") = .str url →
        (pyContains "/wiki/" url || pyContains "confluence" (pyLower url)) = true →
        extract_page_id url = none →
        process_link env (.obj lfs)
          = .ok (some (.obj [("link_id", pyGet lfs "id" JVal.null),
              ("title", pyGet ofs "title" (.str "Untitled")), ("url", .str url),
              ("error", .str "Could not extract page ID from URL")])) := by
  refine ⟨?_, by decide, by decide, by decide, by decide, ?_⟩
  · intro url r h
    unfold extract_page_id
    rw [h]
  · intro env lfs ofs url hobj hurl hc hpid
    have hurl2 : (lookup ofs "url").getD (.str "") = .str url := hurl
    have hc2 : pyContains "/wiki/" url = true
        ∨ pyContains "confluence" (pyLower url) = true := by simpa using hc
    simp [process_link, dotGet, pyGet, hobj, hurl2, hc2, hpid, noid_page_entry]

/-- Witness for C9: the query-parameter pattern wins on a concrete URL,
and the pattern-free link of the concrete environment yields the counted
error-carrying entry. -/
theorem C9_page_id_extraction_witness :
    extract_page_id "https://x/wiki/p?pageId=55" = some "55"
    ∧ process_link envConf noidLink = .ok (some noidEntry)
    ∧ filterMapExcept (process_link envConf) [noidLink] = .ok [noidEntry] :=
  ⟨C9_page_id_extraction.1 "https://x/wiki/p?pageId=55" "55" rfl,
   (C9_page_id_extraction.2.2.2.2.2) envConf
      [("id", .num 103), ("object", .obj [("title", .str "Wiki home"),
        ("url", .str "https://x.atlassian.net/wiki/home")])]
      [("title", .str "Wiki home"), ("url", .str "https://x.atlassian.net/wiki/home")]
      "https://x.atlassian.net/wiki/home" rfl rfl rfl rfl,
   rfl⟩

/-! ### C10: reported counts equal the lengths of their arrays -/

theorem epic_result_count {k : String} {mr sa : Nat} {ed idt r : JVal}
    (h : epic_result k mr sa ed idt = .ok r) :
    ∃ v n, jfield r "issues" = some v ∧ jfield r "returned_issues" = some (.num n)
      ∧ pyLen v = .ok n := by
  unfold epic_result at h
  obtain ⟨info, _, h⟩ := except_bind_ok h
  obtain ⟨total, _, h⟩ := except_bind_ok h
  obtain ⟨issuesVal, _, h⟩ := except_bind_ok h
  obtain ⟨count, hcount, h⟩ := except_bind_ok h
  simp only [exceptPure_eq_ok, Except.ok.injEq] at h
  subst h
  exact ⟨issuesVal, count, by simp [jfield, lookup], by simp [jfield, lookup], hcount⟩

/-- C10: every successfully returned result carries a count equal to the
length of its accompanying array: `returned_issues`/`issues` for
`get_epic_issues` (whose issues value is passed through from upstream, so
the count is its Python `len`), `get_issues_by_assignee` (unless the
upstream body was falsy, which returns the error JSON instead) and
`get_all_issues_in_project`; `returned_epics`/`epics` for `get_all_epics`;
and `confluence_pages_count`/`confluence_pages` for
`get_jira_issue_confluence_content`. -/
theorem C10_counts_match_lengths :
    (∀ (env : Env) (k : String) (mr sa : Nat) (r : JVal),
      (get_epic_issues env k mr sa).1 = .ok r →
      ∃ v n, jfield r "issues" = some v
        ∧ jfield r "returned_issues" = some (.num n) ∧ pyLen v = .ok n)
    ∧ (∀ (env : Env) (a : String) (mr sa : Nat) (r : JVal),
      get_issues_by_assignee env a mr sa = .ok r →
      r = .obj [("error", .str "No data returned from API")]
        ∨ ∃ issues, jfield r "issues" = some (.arr issues)
            ∧ jfield r "returned_issues" = some (.num issues.length))
    ∧ (∀ (env : Env) (pk : String) (mr sa : Nat) (r : JVal),
      get_all_issues_in_project env pk mr sa = .ok r →
      ∃ issues, jfield r "issues" = some (.arr issues)
        ∧ jfield r "returned_issues" = some (.num issues.length))
    ∧ (∀ (env : Env) (pk : Option String) (mr sa : Nat) (r : JVal),
      get_all_epics env pk mr sa = .ok r →
      ∃ epics, jfield r "epics" = some (.arr epics)
        ∧ jfield r "returned_epics" = some (.num epics.length))
    ∧ ∀ (env : Env) (k : String) (r : JVal),
      get_jira_issue_confluence_content env k = .ok r →
      ∃ pages, jfield r "confluence_pages" = some (.arr pages)
        ∧ jfield r "confluence_pages_count" = some (.num pages.length) := by
  refine ⟨?_, ?_, ?_, ?_, ?_⟩
  · intro env k mr sa r hi
    unfold get_epic_issues at hi
    try dsimp only at hi
    cases h0 : env (Req.issue k "" epicFetchFields) with
    | error st => rw [h0] at hi; cases hi
    | ok epic_data =>
      rw [h0] at hi
      try dsimp only at hi
      cases h1 : env (Req.search (jqlPrimary k) mr sa epicSearchFields) with
      | ok d =>
        rw [h1] at hi
        exact epic_result_count hi
      | error e =>
        rw [h1] at hi
        try dsimp only at hi
        cases h2 : dotGet epic_data "id" JVal.null with
        | error e2 => rw [h2] at hi; cases hi
        | ok epic_id =>
          rw [h2] at hi
          try dsimp only at hi
          cases h3 : env (Req.search (jqlFallback epic_id) mr sa epicSearchFields) with
          | error e3 => rw [h3] at hi; cases hi
          | ok d2 =>
            rw [h3] at hi
            exact epic_result_count hi
  · intro env a mr sa r hi
    unfold get_issues_by_assignee at hi
    try dsimp only at hi
    cases h0 : env (Req.search ("assignee = \"" ++ a ++ "\" ORDER BY updated DESC")
        mr sa issueFetchFields) with
    | error st => rw [h0] at hi; cases hi
    | ok data =>
      rw [h0] at hi
      try dsimp only at hi
      by_cases hf : pyFalsy data
      · rw [if_pos hf] at hi
        injection hi with hr
        exact Or.inl hr.symm
      · rw [if_neg hf] at hi
        obtain ⟨issuesRaw, _, hi⟩ := except_bind_ok hi
        obtain ⟨items, _, hi⟩ := except_bind_ok hi
        try dsimp only at hi
        obtain ⟨total, _, hi⟩ := except_bind_ok hi
        simp only [exceptPure_eq_ok, Except.ok.injEq] at hi
        subst hi
        exact Or.inr ⟨items.filterMap (process_issue env),
          by simp [jfield, lookup], by simp [jfield, lookup]⟩
  · intro env pk mr sa r hi
    unfold get_all_issues_in_project at hi
    try dsimp only at hi
    cases h0 : env (Req.search (jqlProject pk) mr sa projectSearchFields) with
    | error st => rw [h0] at hi; cases hi
    | ok data =>
      rw [h0] at hi
      try dsimp only at hi
      obtain ⟨issuesRaw, _, hi⟩ := except_bind_ok hi
      obtain ⟨items, _, hi⟩ := except_bind_ok hi
      obtain ⟨issues, _, hi⟩ := except_bind_ok hi
      obtain ⟨total, _, hi⟩ := except_bind_ok hi
      simp only [exceptPure_eq_ok, Except.ok.injEq] at hi
      subst hi
      exact ⟨issues, by simp [jfield, lookup], by simp [jfield, lookup]⟩
  · intro env pk mr sa r hi
    unfold get_all_epics at hi
    try dsimp only at hi
    cases h0 : env (Req.search (match (match pk with
        | some p => if p.isEmpty then none else some p
        | none => none) with
      | some p => "project = " ++ p ++ " AND type = Epic ORDER BY created DESC"
      | none => "type = Epic ORDER BY created DESC") mr sa epicsListFields) with
    | error st => rw [h0] at hi; cases hi
    | ok data =>
      rw [h0] at hi
      try dsimp only at hi
      obtain ⟨epicsRaw, _, hi⟩ := except_bind_ok hi
      obtain ⟨items, _, hi⟩ := except_bind_ok hi
      obtain ⟨epics, _, hi⟩ := except_bind_ok hi
      obtain ⟨total, _, hi⟩ := except_bind_ok hi
      simp only [exceptPure_eq_ok, Except.ok.injEq] at hi
      subst hi
      exact ⟨epics, by simp [jfield, lookup], by simp [jfield, lookup]⟩
  · intro env k r hi
    unfold get_jira_issue_confluence_content at hi
    try dsimp only at hi
    cases h0 : env (Req.issue k "" "summary") with
    | error st => rw [h0] at hi; cases hi
    | ok issue_data =>
      rw [h0] at hi
      try dsimp only at hi
      cases h1 : env (Req.remotelink k) with
      | error st => rw [h1] at hi; cases hi
      | ok links_data =>
        rw [h1] at hi
        try dsimp only at hi
        obtain ⟨links, _, hi⟩ := except_bind_ok hi
        obtain ⟨pages, _, hi⟩ := except_bind_ok hi
        obtain ⟨fields, _, hi⟩ := except_bind_ok hi
        obtain ⟨issue_summary, _, hi⟩ := except_bind_ok hi
        simp only [exceptPure_eq_ok, Except.ok.injEq] at hi
        subst hi
        exact ⟨pages, by simp [jfield, lookup], by simp [jfield, lookup]⟩

def rEpicC : JVal := .obj [("epic_info",
    .obj [("epic_key", .str "SCRUM-1"), ("epic_id", .str "10001"),
      ("epic_summary", .str "Login epic"), ("epic_assignee", .str ""),
      ("epic_status", .str "To Do"), ("project", .str "Web"),
      ("created", .str "2024-01-01"), ("updated", .str "2024-01-02")]),
  ("total_issues", .num 0), ("returned_issues", .num 0),
  ("start_at", .num 0), ("max_results", .num 100), ("issues", .arr [])]

def rAssC : JVal := .obj [("assignee", .str "dev@example.com"),
  ("total_issues", .num 1), ("returned_issues", .num 1), ("start_at", .num 0),
  ("max_results", .num 50),
  ("issues", .arr [.obj [("key", .str "SCRUM-4"), ("summary", .str "Parent"),
    ("description", .str "d"), ("status", .str "In Progress"),
    ("priority", .str ""), ("issue_type", .str ""), ("project", .str ""),
    ("created", .str ""), ("updated", .str ""),
    ("comments", .arr []), ("history", .arr []),
    ("subtasks", .arr [subPayload1])]])]

def rProjC : JVal := .obj [("project_key", .str "SCRUM"), ("total_issues", .num 1),
  ("returned_issues", .num 1), ("start_at", .num 0), ("max_results", .num 100),
  ("issues", .arr [.obj [("key", .str "SCRUM-2"), ("summary", .str "Fix bug"),
    ("issue_type", .str ""), ("status", .str ""), ("assignee", .str "Unassigned"),
    ("priority", .str ""), ("parent_key", .null), ("parent_summary", .null),
    ("labels", .arr []), ("created", .str ""), ("updated", .str "")]])]

def envEpicsList : Env := fun r =>
  match r with
  | .search _ _ _ _ => .ok (.obj [("total", .num 1),
      ("issues", .arr [.obj [("key", .str "SCRUM-1"), ("fields", .obj [])]])])
  | _ => .ok .null

def rEpicsC : JVal := .obj [("total_epics", .num 1), ("returned_epics", .num 1),
  ("start_at", .num 0), ("max_results", .num 100),
  ("project_filter", .str "All projects"),
  ("epics", .arr [.obj [("key", .str "SCRUM-1"), ("summary", .str ""),
    ("status", .str ""), ("project", .str ""), ("project_key", .str ""),
    ("assignee", .str "Unassigned"), ("priority", .str ""),
    ("created", .str ""), ("updated", .str "")]])]

def rConfC : JVal := .obj [("issue_key", .str "SCRUM-2"),
  ("issue_summary", .str "Parent issue"),
  ("confluence_pages_count", .num 3),
  ("confluence_pages", .arr [goodEntry, badEntry, noidEntry])]

/-- Witness for C10: each of the five aggregators applied to a concrete
environment returns a result whose count field matches its array. -/
theorem C10_counts_match_lengths_witness :
    (∃ v n, jfield rEpicC "issues" = some v
      ∧ jfield rEpicC "returned_issues" = some (.num n) ∧ pyLen v = .ok n)
    ∧ (rAssC = .obj [("error", .str "No data returned from API")]
      ∨ ∃ issues, jfield rAssC "issues" = some (.arr issues)
          ∧ jfield rAssC "returned_issues" = some (.num issues.length))
    ∧ (∃ issues, jfield rProjC "issues" = some (.arr issues)
        ∧ jfield rProjC "returned_issues" = some (.num issues.length))
    ∧ (∃ epics, jfield rEpicsC "epics" = some (.arr epics)
        ∧ jfield rEpicsC "returned_epics" = some (.num epics.length))
    ∧ ∃ pages, jfield rConfC "confluence_pages" = some (.arr pages)
        ∧ jfield rConfC "confluence_pages_count" = some (.num pages.length) :=
  ⟨C10_counts_match_lengths.1 envEpicAbsentAssignee "SCRUM-1" 100 0 rEpicC rfl,
   C10_counts_match_lengths.2.1 envAssignee "dev@example.com" 50 0 rAssC rfl,
   C10_counts_match_lengths.2.2.1 envProjNulls "SCRUM" 100 0 rProjC rfl,
   C10_counts_match_lengths.2.2.2.1 envEpicsList none 100 0 rEpicsC rfl,
   C10_counts_match_lengths.2.2.2.2 envConf "SCRUM-2" rConfC rfl⟩
